import Mathlib

/-!
Verification of the Gridded Data Service core of the MaziShark API
(`api/index.py`) against its natural-language specification.

The Python functions are shallowly embedded as executable Lean functions:
* floats are modelled as rationals (`ℚ`); a possibly non-finite float cell
  (NaN/Inf) is modelled as `Option ℚ`, with `none` standing for a value for
  which `np.isfinite` is false;
* numpy 2-D arrays are `List (List _)` in row-major (C) order;
* `HTTPException` control flow becomes `Except ApiError`;
* the module-level dataset cache becomes explicit state passing.
-/

namespace MaziShark

/-- A float cell as served by numpy: `none` models a non-finite value
(NaN or ±Inf), `some v` a finite value. -/
abbrev Val := Option ℚ

/-! ## Sampler (`sample_data`, api/index.py lines 173-186) -/

/-- Helper: `strideAux f xs i` keeps the elements of `xs` whose index `≡ -i [MOD f]`,
i.e. the elements a Python slice `[::f]` would keep once `i` more elements
have been skipped.  `strideAux f xs 0` is exactly `xs[::f]`. -/
def strideAux (f : Nat) : List α → Nat → List α
  | [], _ => []
  | a :: l, i => if i = 0 then a :: strideAux f l (f - 1) else strideAux f l (i - 1)

/-- Python / numpy slice `xs[::f]`: every `f`-th element starting at index 0. -/
def stride (f : Nat) (xs : List α) : List α := strideAux f xs 0

/-- Fuel-bounded search for the least `k ≥ k0` with `n ≤ k * k * m`. -/
def searchK (n m : Nat) : Nat → Nat → Nat
  | 0, k => k
  | fuel + 1, k => if n ≤ k * k * m then k else searchK n m fuel (k + 1)

/-- The least `k` with `n ≤ k² * m`; for `0 < m` this is
`⌈√(n / m)⌉`, the value `int(np.ceil(np.sqrt(n / m)))` computes. -/
def ceilSqrtDiv (n m : Nat) : Nat := searchK n m (n + 1) 0

/-- Number of columns of a row-major 2-D array (length of the first row). -/
def numCols (data : List (List α)) : Nat := (data.headD []).length

/-- Python `data.size` for a rectangular 2-D numpy array: rows × cols. -/
def dataSize (data : List (List α)) : Nat := data.length * numCols data

/-- The sampler `sample_data` (api/index.py lines 173-186): return the input unchanged
with factor 1 when it already has at most `max_points` cells, otherwise
decimate both axes by `factor = ceil(sqrt(size / max_points))`. -/
def sample_data (data : List (List α)) (max_points : Nat) : List (List α) × Nat :=
  if dataSize data ≤ max_points then
    (data, 1)
  else
    let factor := ceilSqrtDiv (dataSize data) max_points
    ((stride factor data).map (stride factor), factor)

/-! ### Sampler lemmas -/

theorem strideAux_length (f : Nat) (hf : 0 < f) :
    ∀ (xs : List α) (i : Nat), i < f →
      (strideAux f xs i).length = (xs.length + (f - 1) - i) / f := by
  intro xs
  induction xs with
  | nil =>
      intro i hi
      simp only [strideAux, List.length_nil]
      rw [Nat.div_eq_of_lt (by omega)]
  | cons a l ih =>
      intro i hi
      by_cases h0 : i = 0
      · subst h0
        have ihl := ih (f - 1) (by omega)
        show (a :: strideAux f l (f - 1)).length = (l.length + 1 + (f - 1) - 0) / f
        have hsub : l.length + (f - 1) - (f - 1) = l.length := by omega
        have hadd : l.length + 1 + (f - 1) - 0 = l.length + f := by omega
        rw [List.length_cons, ihl, hsub, hadd, Nat.add_div_right _ hf]
      · have ihl := ih (i - 1) (by omega)
        simp only [strideAux]
        rw [if_neg h0, ihl]
        simp only [List.length_cons]
        congr 1
        omega

/-- Length of a Python slice `xs[::f]`: `⌈len(xs) / f⌉` computed as
`(len(xs) + f - 1) / f` in integer arithmetic. -/
theorem stride_length (f : Nat) (hf : 0 < f) (xs : List α) :
    (stride f xs).length = (xs.length + f - 1) / f := by
  have h := strideAux_length f hf xs 0 hf
  simp only [stride]
  rw [h]
  congr 1
  omega

theorem strideAux_getElem? (f : Nat) (hf : 0 < f) :
    ∀ (xs : List α) (i k : Nat), i < f →
      (strideAux f xs i)[k]? = xs[i + k * f]? := by
  intro xs
  induction xs with
  | nil => intro i k _; simp [strideAux]
  | cons a l ih =>
      intro i k hi
      by_cases h0 : i = 0
      · subst h0
        show (a :: strideAux f l (f - 1))[k]? = (a :: l)[0 + k * f]?
        cases k with
        | zero => simp
        | succ k =>
            have ihl := ih (f - 1) k (by omega)
            have hidx : 0 + (k + 1) * f = (f - 1 + k * f) + 1 := by
              have : (k + 1) * f = k * f + f := by ring
              omega
            rw [hidx]
            simpa using ihl
      · have ihl := ih (i - 1) k (by omega)
        simp only [strideAux]
        rw [if_neg h0, ihl]
        have hidx : i + k * f = (i - 1 + k * f) + 1 := by omega
        rw [hidx]
        simp

/-- Element `k` of `xs[::f]` is element `k * f` of `xs`: the slice keeps
every `f`-th element starting at index 0. -/
theorem stride_getElem? (f : Nat) (hf : 0 < f) (xs : List α) (k : Nat) :
    (stride f xs)[k]? = xs[k * f]? := by
  have h := strideAux_getElem? f hf xs 0 k hf
  simpa [stride] using h

theorem strideAux_subset (f : Nat) :
    ∀ (xs : List α) (i : Nat), ∀ a ∈ strideAux f xs i, a ∈ xs := by
  intro xs
  induction xs with
  | nil => intro i a ha; simp [strideAux] at ha
  | cons b l ih =>
      intro i a ha
      by_cases h0 : i = 0
      · subst h0
        have : a ∈ b :: strideAux f l (f - 1) := ha
        rcases List.mem_cons.mp this with h | h
        · exact h ▸ List.mem_cons_self b l
        · exact List.mem_cons_of_mem b (ih (f - 1) a h)
      · simp only [strideAux] at ha
        rw [if_neg h0] at ha
        exact List.mem_cons_of_mem b (ih (i - 1) a ha)

theorem stride_subset (f : Nat) (xs : List α) : ∀ a ∈ stride f xs, a ∈ xs :=
  strideAux_subset f xs 0

/-- If the predicate holds at `k + fuel`, `searchK` finds an index where it
holds (monotonicity of `k ↦ k * k * m`). -/
theorem searchK_holds (n m : Nat) :
    ∀ (fuel k : Nat), n ≤ (k + fuel) * (k + fuel) * m →
      n ≤ searchK n m fuel k * searchK n m fuel k * m := by
  intro fuel
  induction fuel with
  | zero => intro k h; simpa [searchK] using h
  | succ fuel ih =>
      intro k h
      simp only [searchK]
      by_cases hk : n ≤ k * k * m
      · rw [if_pos hk]; exact hk
      · rw [if_neg hk]
        apply ih (k + 1)
        have hidx : k + 1 + fuel = k + (fuel + 1) := by omega
        rw [hidx]
        exact h

/-- The search `searchK` returns the least index `≥ k` satisfying the predicate. -/
theorem searchK_least (n m : Nat) :
    ∀ (fuel k : Nat), (∀ i, i < k → ¬ n ≤ i * i * m) →
      ∀ j, n ≤ j * j * m → searchK n m fuel k ≤ j := by
  intro fuel
  induction fuel with
  | zero =>
      intro k hk j hj
      simp only [searchK]
      by_contra hlt
      exact hk j (by omega) hj
  | succ fuel ih =>
      intro k hk j hj
      simp only [searchK]
      by_cases hkk : n ≤ k * k * m
      · rw [if_pos hkk]
        by_contra hlt
        exact hk j (by omega) hj
      · rw [if_neg hkk]
        refine ih (k + 1) ?_ j hj
        intro i hi
        rcases Nat.lt_or_ge i k with h | h
        · exact hk i h
        · have : i = k := by omega
          subst this; exact hkk

/-- Soundness: `ceilSqrtDiv n m` satisfies the predicate: `n ≤ factor² * m`. -/
theorem ceilSqrtDiv_le (n m : Nat) (hm : 0 < m) :
    n ≤ ceilSqrtDiv n m * ceilSqrtDiv n m * m := by
  refine searchK_holds n m (n + 1) 0 ?_
  have h1 : n ≤ n + 1 := Nat.le_succ n
  have h2 : n + 1 ≤ (n + 1) * (n + 1) := Nat.le_mul_of_pos_left _ (by omega)
  have h3 : (n + 1) * (n + 1) ≤ (n + 1) * (n + 1) * m :=
    Nat.le_mul_of_pos_right _ hm
  simpa using le_trans h1 (le_trans h2 h3)

/-- Leastness: `ceilSqrtDiv n m` is the least `k` with `n ≤ k² * m`. -/
theorem ceilSqrtDiv_least (n m : Nat) (j : Nat) (hj : n ≤ j * j * m) :
    ceilSqrtDiv n m ≤ j :=
  searchK_least n m (n + 1) 0 (by omega) j hj

/-- In the reducing case `max_points < size` (with `max_points > 0`) the
sampling factor is at least 2. -/
theorem ceilSqrtDiv_two_le (n m : Nat) (hm : 0 < m) (hn : m < n) :
    2 ≤ ceilSqrtDiv n m := by
  by_contra h
  have hle : ceilSqrtDiv n m ≤ 1 := by omega
  have h1 := ceilSqrtDiv_le n m hm
  have : ceilSqrtDiv n m * ceilSqrtDiv n m * m ≤ 1 * 1 * m :=
    Nat.mul_le_mul (Nat.mul_le_mul hle hle) (le_refl m)
  omega

/-- Agreement with the float formula: `ceilSqrtDiv n m = ⌈√(n / m)⌉` over the reals: the integer the Python
expression `int(np.ceil(np.sqrt(n / m)))` computes (exact real arithmetic). -/
theorem ceilSqrtDiv_eq_ceil_sqrt (n m : Nat) (hm : 0 < m) :
    ceilSqrtDiv n m = ⌈Real.sqrt ((n : ℝ) / (m : ℝ))⌉₊ := by
  have hm' : (0 : ℝ) < (m : ℝ) := by exact_mod_cast hm
  have hx : (0 : ℝ) ≤ (n : ℝ) / (m : ℝ) := by positivity
  apply le_antisymm
  · -- least property: the ceiling satisfies the predicate
    apply ceilSqrtDiv_least
    set k := ⌈Real.sqrt ((n : ℝ) / (m : ℝ))⌉₊ with hk
    have h1 : Real.sqrt ((n : ℝ) / (m : ℝ)) ≤ (k : ℝ) := Nat.le_ceil _
    have h2 : (n : ℝ) / (m : ℝ) ≤ (k : ℝ) * (k : ℝ) := by
      have := mul_self_le_mul_self (Real.sqrt_nonneg _) h1
      rwa [Real.mul_self_sqrt hx] at this
    have h3 : (n : ℝ) ≤ (k : ℝ) * (k : ℝ) * (m : ℝ) := by
      rw [div_le_iff₀ hm'] at h2
      exact h2
    exact_mod_cast h3
  · rw [Nat.ceil_le]
    have h1 : (n : ℝ) ≤ (ceilSqrtDiv n m : ℝ) * (ceilSqrtDiv n m : ℝ) * (m : ℝ) := by
      exact_mod_cast ceilSqrtDiv_le n m hm
    have h2 : (n : ℝ) / (m : ℝ) ≤ (ceilSqrtDiv n m : ℝ) * (ceilSqrtDiv n m : ℝ) := by
      rw [div_le_iff₀ hm']
      exact h1
    calc Real.sqrt ((n : ℝ) / (m : ℝ))
        ≤ Real.sqrt ((ceilSqrtDiv n m : ℝ) * (ceilSqrtDiv n m : ℝ)) :=
          Real.sqrt_le_sqrt h2
      _ = (ceilSqrtDiv n m : ℝ) := Real.sqrt_mul_self (by positivity)

/-- Ceiling division: `⌈a / b⌉` over `ℚ` equals the integer computation `(a + b - 1) / b`. -/
theorem ceil_div_nat (a b : Nat) (hb : 0 < b) :
    ⌈(a : ℚ) / (b : ℚ)⌉₊ = (a + b - 1) / b := by
  have hb' : (0 : ℚ) < (b : ℚ) := by exact_mod_cast hb
  apply le_antisymm
  · rw [Nat.ceil_le, div_le_iff₀ hb']
    have hdm := Nat.div_add_mod (a + b - 1) b
    have hmod : (a + b - 1) % b < b := Nat.mod_lt _ hb
    have hcomm : b * ((a + b - 1) / b) = (a + b - 1) / b * b := Nat.mul_comm _ _
    have h : a ≤ (a + b - 1) / b * b := by omega
    calc (a : ℚ) ≤ (((a + b - 1) / b * b : ℕ) : ℚ) := by exact_mod_cast h
      _ = ((a + b - 1) / b : ℕ) * (b : ℚ) := by push_cast; ring
  · have h1 : (a : ℚ) / (b : ℚ) ≤ (⌈(a : ℚ) / (b : ℚ)⌉₊ : ℚ) := Nat.le_ceil _
    have h2 : (a : ℚ) ≤ (⌈(a : ℚ) / (b : ℚ)⌉₊ : ℚ) * (b : ℚ) := by
      rw [div_le_iff₀ hb'] at h1
      exact h1
    have h3 : a ≤ ⌈(a : ℚ) / (b : ℚ)⌉₊ * b := by exact_mod_cast h2
    have hdiv : (a + b - 1) / b ≤ ⌈(a : ℚ) / (b : ℚ)⌉₊ := by
      rw [← Nat.lt_succ_iff, Nat.div_lt_iff_lt_mul hb]
      have hexp := Nat.succ_mul (⌈(a : ℚ) / (b : ℚ)⌉₊) b
      omega
    exact hdiv

/-! ## Dataset model (xarray `Dataset`)

An xarray `Dataset` as used by `api/index.py`: named coordinate variables
(always 1-D axis arrays), named data variables (1-D or 2-D), and bare
dimensions with a known size but no values.  `ds.variables` is the union
of coordinate variables and data variables, coordinates first. -/

/-- Payload of a named variable: a 1-D numeric axis array or a 2-D data
array whose cells may be non-finite. -/
inductive VarData where
  | one : List ℚ → VarData
  | two : List (List Val) → VarData
deriving DecidableEq, Repr

structure Dataset where
  /-- Coordinate variables (`ds.coords`): name ↦ 1-D axis values. -/
  coords : List (String × List ℚ)
  /-- Data variables (`ds.data_vars`): name ↦ payload. -/
  dataVars : List (String × VarData)
  /-- Bare dimensions (`ds.dims`) with a size but no coordinate values. -/
  extraDims : List (String × Nat)
deriving DecidableEq, Repr

/-- xarray `ds.variables`: coordinate variables first, then data variables
(xarray exposes both under indexing `ds[name]`). -/
def dsVars (ds : Dataset) : List (String × VarData) :=
  ds.coords.map (fun p => (p.1, VarData.one p.2)) ++ ds.dataVars

/-- Python `list(ds.coords)`: the coordinate names. -/
def coordNames (ds : Dataset) : List String := ds.coords.map Prod.fst

/-- Python `list(ds.variables)`: all variable names. -/
def varNames (ds : Dataset) : List String := (dsVars ds).map Prod.fst

/-- Indexing `ds[name]` (first match; coordinates shadow data variables,
as in xarray where the namespaces cannot collide). -/
def dsLookup (ds : Dataset) (name : String) : Option VarData :=
  (dsVars ds).lookup name

/-- One branch cascade of `get_lat_lon_arrays` (api/index.py lines 199-208
resp. 211-220): try `n1` then `n2` in `ds.coords`, then `n1` then `n2` in
`ds.variables`; `none` if no name matches. -/
def resolveAxis (ds : Dataset) (n1 n2 : String) : Option VarData :=
  if (ds.coords.lookup n1).isSome then dsLookup ds n1
  else if (ds.coords.lookup n2).isSome then dsLookup ds n2
  else if ((dsVars ds).lookup n1).isSome then dsLookup ds n1
  else if ((dsVars ds).lookup n2).isSome then dsLookup ds n2
  else none

/-- The `ValueError` raised by `get_lat_lon_arrays`: which coordinate was
being resolved, plus the inspected coordinate and variable name sets. -/
structure CoordError where
  which : String
  coordNames : List String
  varNames : List String
deriving DecidableEq, Repr

/-- The resolver `get_lat_lon_arrays` (api/index.py lines 189-222). -/
def get_lat_lon_arrays (ds : Dataset) : Except CoordError (VarData × VarData) :=
  match resolveAxis ds "lat" "latitude" with
  | none => .error ⟨"latitude", coordNames ds, varNames ds⟩
  | some latV =>
    match resolveAxis ds "lon" "longitude" with
    | none => .error ⟨"longitude", coordNames ds, varNames ds⟩
    | some lonV => .ok (latV, lonV)

/-- Error taxonomy: each constructor records the HTTP status class the
`HTTPException` of `api/index.py` carries. -/
inductive ApiError where
  /-- 404 — unknown layer / missing file. -/
  | notFound (detail : String)
  /-- 400 — lat/lon out of the dataset's range (`validate_coordinates`):
  records the offending axis, the requested value and the valid range. -/
  | rangeError (axis : String) (value lo hi : ℚ)
  /-- 400 — invalid request parameter (threshold / max_features). -/
  | paramError (detail : String)
  /-- 500 — unresolvable coordinates (`ValueError` from the resolver). -/
  | coordError (e : CoordError)
  /-- 500 — any other internal failure (load error, KeyError, IndexError). -/
  | serverError (detail : String)
deriving DecidableEq, Repr

instance {ε α : Type} [DecidableEq ε] [DecidableEq α] :
    DecidableEq (Except ε α) := fun x y =>
  match x, y with
  | .error a, .error b =>
    if h : a = b then isTrue (by rw [h])
    else isFalse (fun hc => h (by injection hc))
  | .ok a, .ok b =>
    if h : a = b then isTrue (by rw [h])
    else isFalse (fun hc => h (by injection hc))
  | .error _, .ok _ => isFalse (fun hc => Except.noConfusion hc)
  | .ok _, .error _ => isFalse (fun hc => Except.noConfusion hc)

/-- HTTP status code the endpoint maps each error to. -/
def httpStatus : ApiError → Nat
  | .notFound _ => 404
  | .rangeError _ _ _ _ => 400
  | .paramError _ => 400
  | .coordError _ => 500
  | .serverError _ => 500

/-! ## `validate_coordinates` (api/index.py lines 225-245) -/

/-- Range check of `validate_coordinates` once the two 1-D axis arrays are
in hand: `lat_min, lat_max = lat_arr.min(), lat_arr.max()` and the two
inclusive interval tests, latitude first.  `np.min` of an empty axis raises
(`min?` is `none`), which the endpoint's catch-all turns into a 500. -/
def validate_core (lat lon : ℚ) (latArr lonArr : List ℚ) : Except ApiError Unit :=
  match latArr.min?, latArr.max?, lonArr.min?, lonArr.max? with
  | some latMin, some latMax, some lonMin, some lonMax =>
    if ¬ (latMin ≤ lat ∧ lat ≤ latMax) then
      .error (.rangeError "Latitude" lat latMin latMax)
    else if ¬ (lonMin ≤ lon ∧ lon ≤ lonMax) then
      .error (.rangeError "Longitude" lon lonMin lonMax)
    else .ok ()
  | _, _, _, _ => .error (.serverError "Erreur prédiction")

/-- Function `validate_coordinates`: resolve the axes, take `min`/`max` of each, and
check `lat`/`lon` inclusively.  Degenerate situations that raise further
exceptions in Python (2-D axis variables, `np.min` of an empty array) are
mapped to 500 server errors, as the endpoint's catch-all handler does. -/
def validate_coordinates (lat lon : ℚ) (ds : Dataset) : Except ApiError Unit :=
  match get_lat_lon_arrays ds with
  | .error e => .error (.coordError e)
  | .ok (VarData.one latArr, VarData.one lonArr) =>
    validate_core lat lon latArr lonArr
  | .ok _ => .error (.serverError "Erreur prédiction")

/-! ## Point query engine (`predict`, api/index.py lines 512-562) -/

/-- Tail of `np.argmin(np.abs(arr - x))`: scan `l` (indices starting at
`idx`) keeping the index `best` of the smallest distance `bestd` seen so
far; a strict `<` is required to move, so ties keep the earlier index. -/
def argminAux (x : ℚ) : List ℚ → Nat → Nat → ℚ → Nat
  | [], _, best, _ => best
  | y :: l, idx, best, bestd =>
    if |y - x| < bestd then argminAux x l (idx + 1) idx |y - x|
    else argminAux x l (idx + 1) best bestd

/-- Python `int(np.abs(arr - x).argmin())`: index of the first element of `arr`
at minimal absolute distance from `x`; `none` on an empty array (numpy
raises `ValueError` there). -/
def argminAbs (arr : List ℚ) (x : ℚ) : Option Nat :=
  match arr with
  | [] => none
  | y :: l => some (argminAux x l 1 0 |y - x|)

/-- The classification expression of api/index.py line 554:
`"High potential" if val and val > 0.7 else "Moderate potential" if val
and val > 0.4 else "Low potential"`.  Python truthiness makes `None` and
`0.0` falsy, hence the `v ≠ 0` conjuncts. -/
def interpretation (val : Option ℚ) : String :=
  match val with
  | none => "Low potential"
  | some v =>
    if v ≠ 0 ∧ 7/10 < v then "High potential"
    else if v ≠ 0 ∧ 2/5 < v then "Moderate potential"
    else "Low potential"

/-- The JSON object `/predict` returns on success. -/
structure PredictResult where
  lat : ℚ
  lon : ℚ
  H_index : Option ℚ
  nearest_lat : ℚ
  nearest_lon : ℚ
  i : Nat
  j : Nat
  interp : String
deriving DecidableEq, Repr

/-- The three literal reads of `/predict` (api/index.py lines 537-539):
`H = ds["H_index"]`, `lat_arr = ds["lat"].values`,
`lon_arr = ds["lon"].values`.  Any missing name (or a payload of the wrong
arity) raises, which the endpoint's catch-all turns into the same 500,
modelled by `none`. -/
def predict_lookups (ds : Dataset) :
    Option (List (List Val) × List ℚ × List ℚ) :=
  match dsLookup ds "H_index", dsLookup ds "lat", dsLookup ds "lon" with
  | some (VarData.two h), some (VarData.one latArr), some (VarData.one lonArr) =>
    some (h, latArr, lonArr)
  | _, _, _ => none

/-- The nearest-neighbour lookup of `/predict` (api/index.py lines
541-545): per-axis argmin of the absolute difference, then the cell read
`H.values[i, j]`.  `none` models the exceptions (argmin of an empty axis,
IndexError on a mis-aligned grid) the catch-all turns into a 500. -/
def predict_cell (h : List (List Val)) (latArr lonArr : List ℚ)
    (lat lon : ℚ) : Option (Nat × Nat × Val) :=
  match argminAbs latArr lat, argminAbs lonArr lon with
  | some i, some j =>
    match h[i]? with
    | some row =>
      match row[j]? with
      | some val => some (i, j, val)
      | none => none
    | none => none
  | _, _ => none

/-- Body of the `/predict` endpoint once the dataset is loaded
(api/index.py lines 531-555): validate the requested point against the
resolved axes, then read `ds["H_index"]`, `ds["lat"]`, `ds["lon"]` under
those literal names, take the per-axis nearest indices, and read the cell.
Python exceptions the endpoint's catch-all turns into a 500 are the
`serverError` branches. -/
def predict_core (ds : Dataset) (lat lon : ℚ) : Except ApiError PredictResult :=
  match validate_coordinates lat lon ds with
  | .error e => .error e
  | .ok _ =>
    match predict_lookups ds with
    | none => .error (.serverError "Erreur prédiction")
    | some (h, latArr, lonArr) =>
      match predict_cell h latArr lonArr lat lon with
      | none => .error (.serverError "Erreur prédiction")
      | some (i, j, val) =>
        .ok { lat := lat, lon := lon, H_index := val,
              nearest_lat := latArr.getD i 0, nearest_lon := lonArr.getD j 0,
              i := i, j := j, interp := interpretation val }

/-! ## Threshold / hotspot extractor (`get_habitat_geojson`,
api/index.py lines 631-729) -/

/-- numpy `np.where(h_values > threshold)` flattened to row-major `(i, j)` pairs:
row-major scan, keeping cells whose finite value strictly exceeds the
threshold (a NaN cell compares false in numpy). -/
def qualifyingCells (h : List (List Val)) (thr : ℚ) : List (Nat × Nat) :=
  (h.enum.map (fun p =>
    p.2.enum.filterMap (fun q =>
      match q.2 with
      | some v => if thr < v then some (p.1, q.1) else none
      | none => none))).flatten

/-- One GeoJSON feature produced for a qualifying cell. -/
structure Feature where
  H_index : ℚ
  latitude : ℚ
  longitude : ℚ
  habitat_potential : String
  confidence : ℚ
  polygon : List (ℚ × ℚ)
deriving DecidableEq, Repr

/-- Build the feature for cell `(i, j)` (api/index.py lines 667-701):
rectangle of half-width 0.125° around the cell centre, binary potential
label, confidence percentage.  `none` models the `IndexError` a
mis-aligned grid would raise. -/
def cellFeature (latArr lonArr : List ℚ) (h : List (List Val)) (c : Nat × Nat) :
    Option Feature :=
  match latArr[c.1]?, lonArr[c.2]?, h[c.1]? with
  | some la, some lo, some row =>
    match row[c.2]? with
    | some (some v) =>
      some { H_index := v, latitude := la, longitude := lo,
             habitat_potential := if 4/5 < v then "high" else "medium",
             confidence := min (v * 100) 100,
             polygon := [(lo - 1/8, la - 1/8), (lo + 1/8, la - 1/8),
                         (lo + 1/8, la + 1/8), (lo - 1/8, la + 1/8),
                         (lo - 1/8, la - 1/8)] }
    | _ => none
  | _, _, _ => none

/-- Collection-level metadata of the produced FeatureCollection. -/
structure GeoMetadata where
  total_zones : Nat
  total_available : Nat
  threshold : ℚ
  max_features : Int
deriving DecidableEq, Repr

structure FeatureCollection where
  features : List Feature
  metadata : GeoMetadata
deriving DecidableEq, Repr

/-- Endpoint `get_habitat_geojson` (api/index.py lines 631-729).  `loadRes` is the
outcome of `load_netcdf("habitat_index_H", use_cache=True)`; parameter
validation happens before the load is consulted.  `max_features` is a
Python `int`, hence `Int`. -/
def get_habitat_geojson (loadRes : Except ApiError Dataset)
    (threshold : ℚ) (max_features : Int) : Except ApiError FeatureCollection :=
  if ¬ (0 ≤ threshold ∧ threshold ≤ 1) then
    .error (.paramError "Threshold doit être entre 0.0 et 1.0")
  else if max_features < 1 ∨ 50000 < max_features then
    .error (.paramError "max_features doit être entre 1 et 50000")
  else
    match loadRes with
    | .error e => .error e
    | .ok ds =>
      match get_lat_lon_arrays ds with
      | .error e => .error (.coordError e)
      | .ok (VarData.one latArr, VarData.one lonArr) =>
        match dsLookup ds "H_index" with
        | some (VarData.two h) =>
          let idxs := qualifyingCells h threshold
          let total := min idxs.length max_features.toNat
          match (idxs.take total).mapM (cellFeature latArr lonArr h) with
          | some features =>
            .ok { features := features,
                  metadata := { total_zones := features.length,
                                total_available := idxs.length,
                                threshold := threshold,
                                max_features := max_features } }
          | none => .error (.serverError "Erreur génération GeoJSON")
        | _ => .error (.serverError "Erreur génération GeoJSON")
      | .ok _ => .error (.serverError "Erreur génération GeoJSON")

/-! ## Dataset cache (`load_netcdf`, api/index.py lines 132-158) -/

/-- The process environment seen by `load_netcdf`: the metadata registry
(layer name ↦ backing file name) and the backing storage (file name ↦
parsed dataset, `none` when missing or corrupt). -/
structure Env where
  metadata : List (String × String)
  storage : String → Option Dataset

/-- The module-level `_DATASET_CACHE` (insertion at the head overwrites,
as a Python dict assignment does for lookups). -/
abbrev Cache := List (String × Dataset)

/-- Cache-miss path of `load_netcdf` (api/index.py lines 143-158): resolve
the backing file name via the metadata registry (404 if absent), read it
from storage (500 if missing/corrupt, cache untouched), and on success
store the dataset under the layer name when `use_cache`. -/
def load_fresh (env : Env) (cache : Cache) (name : String) (use_cache : Bool) :
    Except ApiError Dataset × Cache × Nat :=
  match env.metadata.lookup name with
  | none =>
    (.error (.notFound ("Couche '" ++ name ++ "' introuvable dans metadata.json")),
     cache, 0)
  | some filename =>
    match env.storage filename with
    | none =>
      (.error (.serverError ("Erreur chargement " ++ filename)), cache, 1)
    | some ds =>
      (.ok ds, if use_cache then (name, ds) :: cache else cache, 1)

/-- Function `load_netcdf` (api/index.py lines 132-158), with the cache passed and
returned explicitly.  The third component counts how many times backing
storage was read during the call. -/
def load_netcdf (env : Env) (cache : Cache) (name : String) (use_cache : Bool) :
    Except ApiError Dataset × Cache × Nat :=
  match if use_cache then cache.lookup name else none with
  | some ds => (.ok ds, cache, 0)
  | none => load_fresh env cache name use_cache

/-! ### argmin lemmas -/

theorem argminAux_spec (x : ℚ) :
    ∀ (l p : List ℚ) (best : Nat) (bestd : ℚ),
      best < p.length →
      bestd = |p.getD best 0 - x| →
      (∀ k, k < p.length → bestd ≤ |p.getD k 0 - x|) →
      (∀ k, k < best → bestd < |p.getD k 0 - x|) →
      argminAux x l p.length best bestd < (p ++ l).length ∧
      (∀ k, k < (p ++ l).length →
        |(p ++ l).getD (argminAux x l p.length best bestd) 0 - x| ≤
          |(p ++ l).getD k 0 - x|) ∧
      (∀ k, k < argminAux x l p.length best bestd →
        |(p ++ l).getD (argminAux x l p.length best bestd) 0 - x| <
          |(p ++ l).getD k 0 - x|) := by
  intro l
  induction l with
  | nil =>
      intro p best bestd hb hd hall hstrict
      simp only [argminAux, List.append_nil]
      refine ⟨hb, ?_, ?_⟩
      · intro k hk
        rw [← hd]
        exact hall k hk
      · intro k hk
        rw [← hd]
        exact hstrict k hk
  | cons y l ih =>
      intro p best bestd hb hd hall hstrict
      have hpy : (p ++ [y]).length = p.length + 1 := by simp
      have hgety : (p ++ [y]).getD p.length 0 = y := by
        rw [List.getD_append_right _ _ _ _ (le_refl p.length)]
        simp [List.getD]
      have hgetlt : ∀ k, k < p.length → (p ++ [y]).getD k 0 = p.getD k 0 := by
        intro k hk
        exact List.getD_append _ _ _ _ hk
      have hassoc : (p ++ [y]) ++ l = p ++ (y :: l) := by simp
      simp only [argminAux]
      by_cases hlt : |y - x| < bestd
      · rw [if_pos hlt]
        have := ih (p ++ [y]) p.length |y - x|
          (by omega)
          (by rw [hgety])
          (by intro k hk
              rcases Nat.lt_or_ge k p.length with h | h
              · rw [hgetlt k h]
                exact le_of_lt (lt_of_lt_of_le hlt (hall k h))
              · have hkp : k = p.length := by omega
                rw [hkp, hgety])
          (by intro k hk
              rw [hgetlt k hk]
              exact lt_of_lt_of_le hlt (hall k hk))
        rw [hpy, hassoc] at this
        exact this
      · rw [if_neg hlt]
        have hle : bestd ≤ |y - x| := le_of_not_lt hlt
        have := ih (p ++ [y]) best bestd
          (by omega)
          (by rw [hgetlt best hb]; exact hd)
          (by intro k hk
              rcases Nat.lt_or_ge k p.length with h | h
              · rw [hgetlt k h]
                exact hall k h
              · have hkp : k = p.length := by omega
                rw [hkp, hgety]
                exact hle)
          (by intro k hk
              rw [hgetlt k (by omega)]
              exact hstrict k hk)
        rw [hpy, hassoc] at this
        exact this

/-- Totality: `argminAbs` returns an index on any nonempty array. -/
theorem argminAbs_isSome (arr : List ℚ) (x : ℚ) (h : arr ≠ []) :
    (argminAbs arr x).isSome := by
  cases arr with
  | nil => exact absurd rfl h
  | cons y l => simp [argminAbs]

/-- Characterization of `np.abs(arr - x).argmin()`: the returned index is in
range, its distance to `x` is minimal over the whole array, and it is the
first index achieving that minimum (every earlier index is strictly worse). -/
theorem argminAbs_spec (arr : List ℚ) (x : ℚ) (i : Nat)
    (h : argminAbs arr x = some i) :
    i < arr.length ∧
    (∀ k, k < arr.length → |arr.getD i 0 - x| ≤ |arr.getD k 0 - x|) ∧
    (∀ k, k < i → |arr.getD i 0 - x| < |arr.getD k 0 - x|) := by
  cases arr with
  | nil => simp [argminAbs] at h
  | cons y l =>
      have hy : argminAux x l ([y] : List ℚ).length 0 |y - x| = i := by
        simpa [argminAbs] using h
      have hspec := argminAux_spec x l [y] 0 |y - x|
        (by simp)
        (by simp [List.getD])
        (by intro k hk
            have hk0 : k = 0 := by simpa using hk
            subst hk0
            simp [List.getD])
        (by intro k hk; omega)
      rw [hy] at hspec
      simpa using hspec

/-! ## Claim C1 — the Sampler contract -/

/-- C1.  For every 2-D numeric array `values` and positive `max_points`:
if `values.size ≤ max_points`, `sample` returns the input unchanged with
factor 1; otherwise it returns `factor = ceil(sqrt(values.size /
max_points))` together with every `factor`-th row and column starting at
index 0, with output shape exactly `(ceil(rows/factor),
ceil(cols/factor))`; in the reducing case `factor ≥ 2`, so `factor = 1`
iff no reduction occurred. -/
theorem sample_data_spec (data : List (List ℚ)) (max_points : Nat)
    (hmp : 0 < max_points)
    (hrect : ∀ row ∈ data, row.length = numCols data) :
    (dataSize data ≤ max_points → sample_data data max_points = (data, 1)) ∧
    ((sample_data data max_points).2 = 1 ↔ dataSize data ≤ max_points) ∧
    (∀ out f, sample_data data max_points = (out, f) →
      max_points < dataSize data →
      2 ≤ f ∧
      f = ⌈Real.sqrt ((dataSize data : ℝ) / (max_points : ℝ))⌉₊ ∧
      out = (stride f data).map (stride f) ∧
      out.length = ⌈(data.length : ℚ) / (f : ℚ)⌉₊ ∧
      (∀ row ∈ out, row.length = ⌈(numCols data : ℚ) / (f : ℚ)⌉₊) ∧
      (∀ i j, (out[i]?.bind fun r => r[j]?) =
              (data[i * f]?.bind fun r => r[j * f]?))) := by
  refine ⟨?_, ?_, ?_⟩
  · intro hle
    simp [sample_data, if_pos hle]
  · constructor
    · intro hf
      by_contra hgt
      push_neg at hgt
      have h2 : 2 ≤ ceilSqrtDiv (dataSize data) max_points :=
        ceilSqrtDiv_two_le _ _ hmp hgt
      have hne : ¬ dataSize data ≤ max_points := by omega
      have : (sample_data data max_points).2 = ceilSqrtDiv (dataSize data) max_points := by
        simp only [sample_data]
        rw [if_neg hne]
      omega
    · intro hle
      simp [sample_data, if_pos hle]
  · intro out f heq hgt
    have hne : ¬ dataSize data ≤ max_points := by omega
    have heq' : sample_data data max_points =
        ((stride (ceilSqrtDiv (dataSize data) max_points) data).map
           (stride (ceilSqrtDiv (dataSize data) max_points)),
         ceilSqrtDiv (dataSize data) max_points) := by
      simp [sample_data, if_neg hne]
    rw [heq'] at heq
    have hf : f = ceilSqrtDiv (dataSize data) max_points := (Prod.mk.injEq _ _ _ _ ▸ heq).2.symm
    have hout : out = (stride f data).map (stride f) := by
      rw [hf]
      exact ((Prod.mk.injEq _ _ _ _ ▸ heq).1).symm
    have h2 : 2 ≤ f := hf ▸ ceilSqrtDiv_two_le _ _ hmp hgt
    have hfpos : 0 < f := by omega
    refine ⟨h2, ?_, hout, ?_, ?_, ?_⟩
    · rw [hf]
      exact ceilSqrtDiv_eq_ceil_sqrt _ _ hmp
    · rw [hout, List.length_map, stride_length f hfpos, ceil_div_nat _ _ hfpos]
    · intro row hrow
      rw [hout] at hrow
      rcases List.mem_map.mp hrow with ⟨orig, horig, hrow'⟩
      have horig' : orig ∈ data := stride_subset f data orig horig
      rw [← hrow', stride_length f hfpos, hrect orig horig', ceil_div_nat _ _ hfpos]
    · intro i j
      rw [hout]
      rw [List.getElem?_map, stride_getElem? f hfpos data i]
      cases hrow : data[i * f]? with
      | none => simp
      | some r => simp [stride_getElem? f hfpos r j]

/-- Witness for C1 at a concrete input: a 4×4 grid sampled to at most 4
points (factor 2). -/
theorem sample_data_spec_witness :
    (0 < 4 ∧ (∀ row ∈ [[(1:ℚ),2,3,4],[5,6,7,8],[9,10,11,12],[13,14,15,16]],
        row.length = numCols [[(1:ℚ),2,3,4],[5,6,7,8],[9,10,11,12],[13,14,15,16]])) ∧
    ((sample_data [[(1:ℚ),2,3,4],[5,6,7,8],[9,10,11,12],[13,14,15,16]] 4).2 = 1 ↔
      dataSize [[(1:ℚ),2,3,4],[5,6,7,8],[9,10,11,12],[13,14,15,16]] ≤ 4) :=
  ⟨⟨by decide, by decide⟩,
   (sample_data_spec [[(1:ℚ),2,3,4],[5,6,7,8],[9,10,11,12],[13,14,15,16]] 4
      (by decide) (by decide)).2.1⟩

/-! ## Association-list lemmas for the resolver -/

theorem lookup_append (l1 l2 : List (String × β)) (k : String) :
    (l1 ++ l2).lookup k = ((l1.lookup k).or (l2.lookup k)) := by
  induction l1 with
  | nil => simp
  | cons a l ih =>
      cases a with
      | mk ka va =>
          by_cases hk : k = ka
          · subst hk
            simp [List.lookup]
          · have hbeq : (k == ka) = false := by simpa [beq_iff_eq] using hk
            simp [List.lookup, hbeq, List.append_eq, ih]

theorem lookup_map_value (f : β → γ) (l : List (String × β)) (k : String) :
    (l.map (fun p => (p.1, f p.2))).lookup k = (l.lookup k).map f := by
  induction l with
  | nil => simp
  | cons a l ih =>
      cases a with
      | mk ka va =>
          by_cases hk : k = ka
          · subst hk
            simp [List.lookup]
          · have hbeq : (k == ka) = false := by simpa [beq_iff_eq] using hk
            simp [List.lookup, hbeq, ih]

/-- Indexing `ds[n]` when `n` is a declared coordinate: the coordinate's values. -/
theorem dsLookup_coord (ds : Dataset) (n : String) (v : List ℚ)
    (h : ds.coords.lookup n = some v) : dsLookup ds n = some (VarData.one v) := by
  unfold dsLookup dsVars
  rw [lookup_append, lookup_map_value, h]
  rfl

/-- A name absent from `ds.variables` is absent from `ds.coords`. -/
theorem coords_lookup_none (ds : Dataset) (n : String)
    (h : (dsVars ds).lookup n = none) : ds.coords.lookup n = none := by
  unfold dsVars at h
  rw [lookup_append, lookup_map_value] at h
  cases hc : ds.coords.lookup n with
  | none => rfl
  | some v => rw [hc] at h; simp at h

/-! ## Claim C2 — no synthesis from bare dimensions -/

/-- C2 counterexample.  A grid with no `lat`/`latitude` axis among its
coordinates or variables but with a bare dimension `"lat"` of known size 5:
the claim says resolution synthesizes a linearly-spaced −90..90 array of
length 5, but `get_lat_lon_arrays` raises its `ValueError` (naming only the
coordinate and variable name sets, not the dimensions). -/
theorem get_lat_lon_arrays_no_synthesis_cex :
    (Dataset.mk [] [("H_index", VarData.two [[some 1]])]
        [("lat", 5), ("lon", 4)]).extraDims.lookup "lat" = some 5 ∧
    get_lat_lon_arrays
        (Dataset.mk [] [("H_index", VarData.two [[some 1]])]
          [("lat", 5), ("lon", 4)]) =
      .error ⟨"latitude", [], ["H_index"]⟩ := by
  constructor
  · decide
  · rfl

/-- Resolver failure: when neither candidate name occurs among the grid's
variables (hence not among its coordinates either), `resolveAxis` finds
nothing — `ds.extraDims` is never consulted. -/
theorem resolveAxis_none (ds : Dataset) (n1 n2 : String)
    (h1 : (dsVars ds).lookup n1 = none)
    (h2 : (dsVars ds).lookup n2 = none) :
    resolveAxis ds n1 n2 = none := by
  have hc1 := coords_lookup_none ds n1 h1
  have hc2 := coords_lookup_none ds n2 h2
  unfold resolveAxis
  rw [hc1, hc2, h1, h2]
  rfl

/-- C2 amended.  `get_lat_lon_arrays` never synthesizes coordinates: when
neither `"lat"` nor `"latitude"` occurs among the grid's coordinates or
variables it fails with the latitude `ValueError` naming the coordinate and
variable name sets — even when a bare dimension named `"lat"` of known size
exists (the function never consults `ds.extraDims`); and likewise for
longitude: when latitude resolves but neither `"lon"` nor `"longitude"`
occurs, it fails with the longitude `ValueError` naming the same sets, a
bare `"lon"` dimension notwithstanding. -/
theorem get_lat_lon_arrays_no_match (ds : Dataset) :
    ((dsVars ds).lookup "lat" = none → (dsVars ds).lookup "latitude" = none →
      get_lat_lon_arrays ds =
        .error ⟨"latitude", coordNames ds, varNames ds⟩) ∧
    (∀ latV, resolveAxis ds "lat" "latitude" = some latV →
      (dsVars ds).lookup "lon" = none → (dsVars ds).lookup "longitude" = none →
      get_lat_lon_arrays ds =
        .error ⟨"longitude", coordNames ds, varNames ds⟩) := by
  constructor
  · intro h1 h2
    unfold get_lat_lon_arrays
    rw [resolveAxis_none ds "lat" "latitude" h1 h2]
  · intro latV hlat h3 h4
    unfold get_lat_lon_arrays
    rw [hlat]
    show (match resolveAxis ds "lon" "longitude" with
      | none => Except.error (⟨"longitude", coordNames ds, varNames ds⟩ : CoordError)
      | some lonV => Except.ok (latV, lonV)) = _
    rw [resolveAxis_none ds "lon" "longitude" h3 h4]

/-- Witness for C2's amended theorem: the latitude half at the
counterexample grid (bare `"lat"` dimension only), and the longitude half
at a grid whose latitude resolves but whose longitude exists only as a
bare `"lon"` dimension. -/
theorem get_lat_lon_arrays_no_match_witness :
    (((dsVars (Dataset.mk [] [("H_index", VarData.two [[some 1]])]
        [("lat", 5), ("lon", 4)])).lookup "lat" = none ∧
      (dsVars (Dataset.mk [] [("H_index", VarData.two [[some 1]])]
        [("lat", 5), ("lon", 4)])).lookup "latitude" = none) ∧
     get_lat_lon_arrays
        (Dataset.mk [] [("H_index", VarData.two [[some 1]])]
          [("lat", 5), ("lon", 4)]) =
      .error ⟨"latitude",
        coordNames (Dataset.mk [] [("H_index", VarData.two [[some 1]])]
          [("lat", 5), ("lon", 4)]),
        varNames (Dataset.mk [] [("H_index", VarData.two [[some 1]])]
          [("lat", 5), ("lon", 4)])⟩) ∧
    ((resolveAxis (Dataset.mk [("lat", [0])] [("H_index", VarData.two [[some 1]])]
        [("lon", 4)]) "lat" "latitude" = some (VarData.one [0]) ∧
      (dsVars (Dataset.mk [("lat", [0])] [("H_index", VarData.two [[some 1]])]
        [("lon", 4)])).lookup "lon" = none ∧
      (dsVars (Dataset.mk [("lat", [0])] [("H_index", VarData.two [[some 1]])]
        [("lon", 4)])).lookup "longitude" = none) ∧
     get_lat_lon_arrays
        (Dataset.mk [("lat", [0])] [("H_index", VarData.two [[some 1]])]
          [("lon", 4)]) =
      .error ⟨"longitude",
        coordNames (Dataset.mk [("lat", [0])] [("H_index", VarData.two [[some 1]])]
          [("lon", 4)]),
        varNames (Dataset.mk [("lat", [0])] [("H_index", VarData.two [[some 1]])]
          [("lon", 4)])⟩) :=
  ⟨⟨⟨by decide, by decide⟩,
    (get_lat_lon_arrays_no_match
      (Dataset.mk [] [("H_index", VarData.two [[some 1]])]
        [("lat", 5), ("lon", 4)])).1 (by decide) (by decide)⟩,
   ⟨⟨by decide, by decide, by decide⟩,
    (get_lat_lon_arrays_no_match
      (Dataset.mk [("lat", [0])] [("H_index", VarData.two [[some 1]])]
        [("lon", 4)])).2 (VarData.one [0]) (by decide) (by decide) (by decide)⟩⟩

/-! ## Claim C8 — resolver precedence -/

/-- C8 counterexample.  A grid exposing a `"latitude"` coordinate (values
`[1, 2]`) and a `"lat"` data variable (values `[5, 6]`): resolution returns
the `"latitude"` one, not the `"lat"` one, because the search is
coordinates-first (`coords["lat"]`, `coords["latitude"]`, then variables),
not name-first. -/
theorem resolver_lat_precedence_cex :
    dsLookup (Dataset.mk [("latitude", [1, 2]), ("lon", [0])]
        [("lat", VarData.one [5, 6])] []) "lat" = some (VarData.one [5, 6]) ∧
    dsLookup (Dataset.mk [("latitude", [1, 2]), ("lon", [0])]
        [("lat", VarData.one [5, 6])] []) "latitude" = some (VarData.one [1, 2]) ∧
    get_lat_lon_arrays (Dataset.mk [("latitude", [1, 2]), ("lon", [0])]
        [("lat", VarData.one [5, 6])] []) =
      .ok (VarData.one [1, 2], VarData.one [0]) ∧
    VarData.one ([1, 2] : List ℚ) ≠ VarData.one [5, 6] := by
  refine ⟨by decide, by decide, by rfl, by decide⟩

/-- C8 amended.  The resolver's first-match order is `coords[n1]`,
`coords[n2]`, `variables[n1]`, `variables[n2]` (with `n1 = "lat"`,
`n2 = "latitude"`, and likewise `"lon"`/`"longitude"`): `"lat"` wins over
`"latitude"` whenever it is a declared coordinate, or whenever neither name
is a coordinate; a `"latitude"` coordinate however beats a `"lat"` that is
only a data variable. -/
theorem resolveAxis_precedence (ds : Dataset) (n1 n2 : String) :
    (∀ v, ds.coords.lookup n1 = some v →
      resolveAxis ds n1 n2 = some (VarData.one v)) ∧
    (ds.coords.lookup n1 = none → ∀ v, ds.coords.lookup n2 = some v →
      resolveAxis ds n1 n2 = some (VarData.one v)) ∧
    (ds.coords.lookup n1 = none → ds.coords.lookup n2 = none →
      ∀ w, (dsVars ds).lookup n1 = some w → resolveAxis ds n1 n2 = some w) ∧
    (ds.coords.lookup n1 = none → ds.coords.lookup n2 = none →
      (dsVars ds).lookup n1 = none →
      ∀ w, (dsVars ds).lookup n2 = some w → resolveAxis ds n1 n2 = some w) := by
  refine ⟨?_, ?_, ?_, ?_⟩
  · intro v hv
    unfold resolveAxis
    rw [hv]
    simp only [Option.isSome_some, if_pos]
    exact dsLookup_coord ds n1 v hv
  · intro h1 v hv
    unfold resolveAxis
    rw [h1, hv]
    simp only [Option.isSome_none, Option.isSome_some, Bool.false_eq_true, if_false, if_pos]
    exact dsLookup_coord ds n2 v hv
  · intro h1 h2 w hw
    unfold resolveAxis
    rw [h1, h2, hw]
    simp only [Option.isSome_none, Option.isSome_some, Bool.false_eq_true, if_false, if_pos]
    exact hw
  · intro h1 h2 h3 w hw
    unfold resolveAxis
    rw [h1, h2, h3, hw]
    simp only [Option.isSome_none, Option.isSome_some, Bool.false_eq_true, if_false, if_pos]
    exact hw

/-- Witness for C8's amended theorem: both `"lat"` and `"latitude"` are
declared coordinates with different values, and the `"lat"` one wins. -/
theorem resolveAxis_precedence_witness :
    (Dataset.mk [("lat", [5, 6]), ("latitude", [1, 2])] [] []).coords.lookup "lat" =
      some [5, 6] ∧
    resolveAxis (Dataset.mk [("lat", [5, 6]), ("latitude", [1, 2])] [] [])
        "lat" "latitude" = some (VarData.one [5, 6]) :=
  ⟨by decide,
   (resolveAxis_precedence (Dataset.mk [("lat", [5, 6]), ("latitude", [1, 2])] [] [])
      "lat" "latitude").1 [5, 6] (by decide)⟩

/-! ## min?/max? characterization (for `np.min` / `np.max` on axes) -/

instance : Std.Antisymm (fun a b : ℚ => a ≤ b) where
  antisymm h1 h2 := le_antisymm h1 h2

theorem qmin_spec (l : List ℚ) (a : ℚ) (h : l.min? = some a) :
    a ∈ l ∧ ∀ b ∈ l, a ≤ b := by
  refine (List.min?_eq_some_iff ?_ ?_ ?_).mp h
  · exact fun x => le_refl x
  · exact fun x y => min_choice x y
  · exact fun x y z => le_min_iff

theorem qmax_spec (l : List ℚ) (a : ℚ) (h : l.max? = some a) :
    a ∈ l ∧ ∀ b ∈ l, b ≤ a := by
  refine (List.max?_eq_some_iff ?_ ?_ ?_).mp h
  · exact fun x => le_refl x
  · exact fun x y => max_choice x y
  · exact fun x y z => max_le_iff

/-! ## Claim C7 — point-query bounds validation -/

/-- C7.  `validate_coordinates` checks the requested `lat`/`lon` against the
inclusive `[min, max]` range of the grid's resolved coordinate axes: it
succeeds exactly when both lie in range (so an exact boundary value
passes), and otherwise fails with a 400 `RangeError` naming the offending
axis, the requested value, and the valid range, latitude checked first. -/
theorem validate_coordinates_spec (ds : Dataset) (lat lon : ℚ)
    (latArr lonArr : List ℚ) (latMin latMax lonMin lonMax : ℚ)
    (hres : get_lat_lon_arrays ds = .ok (VarData.one latArr, VarData.one lonArr))
    (hlatmin : latArr.min? = some latMin) (hlatmax : latArr.max? = some latMax)
    (hlonmin : lonArr.min? = some lonMin) (hlonmax : lonArr.max? = some lonMax) :
    (latMin ∈ latArr ∧ (∀ b ∈ latArr, latMin ≤ b) ∧
     latMax ∈ latArr ∧ (∀ b ∈ latArr, b ≤ latMax) ∧
     lonMin ∈ lonArr ∧ (∀ b ∈ lonArr, lonMin ≤ b) ∧
     lonMax ∈ lonArr ∧ (∀ b ∈ lonArr, b ≤ lonMax)) ∧
    (validate_coordinates lat lon ds = .ok () ↔
      (latMin ≤ lat ∧ lat ≤ latMax ∧ lonMin ≤ lon ∧ lon ≤ lonMax)) ∧
    (¬ (latMin ≤ lat ∧ lat ≤ latMax) →
      validate_coordinates lat lon ds =
        .error (.rangeError "Latitude" lat latMin latMax) ∧
      httpStatus (.rangeError "Latitude" lat latMin latMax) = 400) ∧
    ((latMin ≤ lat ∧ lat ≤ latMax) → ¬ (lonMin ≤ lon ∧ lon ≤ lonMax) →
      validate_coordinates lat lon ds =
        .error (.rangeError "Longitude" lon lonMin lonMax)) := by
  have hv : validate_coordinates lat lon ds =
      (if ¬ (latMin ≤ lat ∧ lat ≤ latMax) then
        .error (.rangeError "Latitude" lat latMin latMax)
      else if ¬ (lonMin ≤ lon ∧ lon ≤ lonMax) then
        .error (.rangeError "Longitude" lon lonMin lonMax)
      else .ok ()) := by
    unfold validate_coordinates
    rw [hres]
    show validate_core lat lon latArr lonArr = _
    unfold validate_core
    rw [hlatmin, hlatmax, hlonmin, hlonmax]
  obtain ⟨h1, h2⟩ := qmin_spec latArr latMin hlatmin
  obtain ⟨h3, h4⟩ := qmax_spec latArr latMax hlatmax
  obtain ⟨h5, h6⟩ := qmin_spec lonArr lonMin hlonmin
  obtain ⟨h7, h8⟩ := qmax_spec lonArr lonMax hlonmax
  refine ⟨⟨h1, h2, h3, h4, h5, h6, h7, h8⟩, ?_, ?_, ?_⟩
  · rw [hv]
    by_cases hla : latMin ≤ lat ∧ lat ≤ latMax
    · rw [if_neg (not_not_intro hla)]
      by_cases hlo : lonMin ≤ lon ∧ lon ≤ lonMax
      · rw [if_neg (not_not_intro hlo)]
        constructor
        · intro _
          exact ⟨hla.1, hla.2, hlo.1, hlo.2⟩
        · intro _
          rfl
      · rw [if_pos hlo]
        constructor
        · intro hfalse
          exact absurd hfalse (by simp)
        · intro hcon
          exact absurd ⟨hcon.2.2.1, hcon.2.2.2⟩ hlo
    · rw [if_pos hla]
      constructor
      · intro hfalse
        exact absurd hfalse (by simp)
      · intro hcon
        exact absurd ⟨hcon.1, hcon.2.1⟩ hla
  · intro hla
    rw [hv, if_pos hla]
    exact ⟨rfl, rfl⟩
  · intro hla hlo
    rw [hv, if_neg (not_not_intro hla), if_pos hlo]

/-- Witness for C7: latitude axis `[-70, 0, 70]`; the boundary request
`lat = 70` succeeds, `lat = 75` fails with the range stated. -/
theorem validate_coordinates_spec_witness :
    (get_lat_lon_arrays (Dataset.mk [("lat", [-70, 0, 70]), ("lon", [0])] [] []) =
        .ok (VarData.one [-70, 0, 70], VarData.one [0]) ∧
      ([(-70 : ℚ), 0, 70].min? = some (-70) ∧ [(-70 : ℚ), 0, 70].max? = some 70 ∧
       [(0 : ℚ)].min? = some 0 ∧ [(0 : ℚ)].max? = some 0)) ∧
    validate_coordinates 70 0 (Dataset.mk [("lat", [-70, 0, 70]), ("lon", [0])] [] []) =
      .ok () ∧
    validate_coordinates 75 0 (Dataset.mk [("lat", [-70, 0, 70]), ("lon", [0])] [] []) =
      .error (.rangeError "Latitude" 75 (-70) 70) := by
  refine ⟨⟨by rfl, by decide, by decide, by decide, by decide⟩, ?_, ?_⟩
  · exact (validate_coordinates_spec
      (Dataset.mk [("lat", [-70, 0, 70]), ("lon", [0])] [] []) 70 0
      [-70, 0, 70] [0] (-70) 70 0 0 (by rfl)
      (by decide) (by decide) (by decide) (by decide)).2.1.mpr
      (by refine ⟨by decide, by decide, by decide, by decide⟩)
  · exact ((validate_coordinates_spec
      (Dataset.mk [("lat", [-70, 0, 70]), ("lon", [0])] [] []) 75 0
      [-70, 0, 70] [0] (-70) 70 0 0 (by rfl)
      (by decide) (by decide) (by decide) (by decide)).2.2.1
      (by intro hcon; exact absurd hcon.2 (by decide))).1

/-! ### predict lemmas -/

theorem predict_lookups_eq (ds : Dataset) (h : List (List Val))
    (latArr lonArr : List ℚ)
    (hH : dsLookup ds "H_index" = some (VarData.two h))
    (hla : dsLookup ds "lat" = some (VarData.one latArr))
    (hlo : dsLookup ds "lon" = some (VarData.one lonArr)) :
    predict_lookups ds = some (h, latArr, lonArr) := by
  unfold predict_lookups
  rw [hH, hla, hlo]

theorem predict_lookups_inv (ds : Dataset) (h : List (List Val))
    (latArr lonArr : List ℚ)
    (hp : predict_lookups ds = some (h, latArr, lonArr)) :
    dsLookup ds "H_index" = some (VarData.two h) ∧
    dsLookup ds "lat" = some (VarData.one latArr) ∧
    dsLookup ds "lon" = some (VarData.one lonArr) := by
  unfold predict_lookups at hp
  split at hp
  · rcases hp with ⟨⟩
    refine ⟨by assumption, by assumption, by assumption⟩
  · exact absurd hp (by simp)

theorem predict_cell_eq (h : List (List Val)) (latArr lonArr : List ℚ)
    (lat lon : ℚ) (i j : Nat) (row : List Val) (val : Val)
    (hi : argminAbs latArr lat = some i)
    (hj : argminAbs lonArr lon = some j)
    (hrow : h[i]? = some row)
    (hval : row[j]? = some val) :
    predict_cell h latArr lonArr lat lon = some (i, j, val) := by
  unfold predict_cell
  rw [hi, hj]
  show (match h[i]? with
    | some row =>
      match row[j]? with
      | some val => some (i, j, val)
      | none => none
    | none => none) = some (i, j, val)
  rw [hrow]
  show (match row[j]? with
    | some val => some (i, j, val)
    | none => none) = some (i, j, val)
  rw [hval]

theorem predict_cell_inv (h : List (List Val)) (latArr lonArr : List ℚ)
    (lat lon : ℚ) (i j : Nat) (val : Val)
    (hp : predict_cell h latArr lonArr lat lon = some (i, j, val)) :
    argminAbs latArr lat = some i ∧ argminAbs lonArr lon = some j ∧
    ∃ row, h[i]? = some row ∧ row[j]? = some val := by
  unfold predict_cell at hp
  split at hp
  · split at hp
    · split at hp
      · rcases hp with ⟨⟩
        exact ⟨by assumption, by assumption, _, by assumption, by assumption⟩
      · exact absurd hp (by simp)
    · exact absurd hp (by simp)
  · exact absurd hp (by simp)

/-- Success shape of `predict_core`: with the point validated, the three
literal reads succeeding, the per-axis argmins defined and the cell read
in range, the endpoint returns the fully determined result object. -/
theorem predict_core_ok_shape (ds : Dataset) (lat lon : ℚ)
    (h : List (List Val)) (latArr lonArr : List ℚ) (i j : Nat)
    (row : List Val) (val : Val)
    (hval : validate_coordinates lat lon ds = .ok ())
    (hH : dsLookup ds "H_index" = some (VarData.two h))
    (hla : dsLookup ds "lat" = some (VarData.one latArr))
    (hlo : dsLookup ds "lon" = some (VarData.one lonArr))
    (hi : argminAbs latArr lat = some i)
    (hj : argminAbs lonArr lon = some j)
    (hrow : h[i]? = some row)
    (hvalc : row[j]? = some val) :
    predict_core ds lat lon = .ok
      { lat := lat, lon := lon, H_index := val,
        nearest_lat := latArr.getD i 0, nearest_lon := lonArr.getD j 0,
        i := i, j := j, interp := interpretation val } := by
  unfold predict_core
  rw [hval, predict_lookups_eq ds h latArr lonArr hH hla hlo]
  show (match predict_cell h latArr lonArr lat lon with
    | none => Except.error (ApiError.serverError "Erreur prédiction")
    | some (i, j, val) =>
      Except.ok
        ({ lat := lat, lon := lon, H_index := val,
           nearest_lat := latArr.getD i 0, nearest_lon := lonArr.getD j 0,
           i := i, j := j, interp := interpretation val } : PredictResult)) = _
  rw [predict_cell_eq h latArr lonArr lat lon i j row val hi hj hrow hvalc]

/-- Inversion of a successful `predict_core` call. -/
theorem predict_core_ok_inv (ds : Dataset) (lat lon : ℚ) (res : PredictResult)
    (hok : predict_core ds lat lon = .ok res) :
    validate_coordinates lat lon ds = .ok () ∧
    ∃ h latArr lonArr row,
      predict_lookups ds = some (h, latArr, lonArr) ∧
      argminAbs latArr lat = some res.i ∧ argminAbs lonArr lon = some res.j ∧
      h[res.i]? = some row ∧ row[res.j]? = some res.H_index ∧
      res.lat = lat ∧ res.lon = lon ∧
      res.nearest_lat = latArr.getD res.i 0 ∧
      res.nearest_lon = lonArr.getD res.j 0 ∧
      res.interp = interpretation res.H_index := by
  unfold predict_core at hok
  split at hok
  · exact absurd hok (by simp)
  · rename_i u hvala
    split at hok
    · exact absurd hok (by simp)
    · rename_i h latArr lonArr hpl
      split at hok
      · exact absurd hok (by simp)
      · rename_i i j val hcell
        rcases hok with ⟨⟩
        have hu : u = () := rfl
        obtain ⟨hi, hj, row, hrow, hv⟩ :=
          predict_cell_inv h latArr lonArr lat lon i j val hcell
        exact ⟨hu ▸ hvala, h, latArr, lonArr, row, hpl, hi, hj, hrow, hv,
          rfl, rfl, rfl, rfl, rfl⟩

/-! ## Claim C3 — per-axis nearest-neighbour lookup -/

/-- C3.  Whenever `predict` succeeds, the returned cell indices are the
per-axis argmins of the absolute difference against `ds["lat"]` and
`ds["lon"]` independently (not a 2-D Euclidean nearest neighbour): each
index is in range, its distance is minimal along its own axis, and every
earlier index is strictly worse (ties resolve to the first minimal index);
the returned nearest coordinates are the axis values at those indices.  In
particular for axes `lat = [0,10,20]`, `lon = [0,10]`, the query
`(lat=12, lon=1)` resolves to `(i=1, j=0)`. -/
theorem predict_nearest_spec (ds : Dataset) (lat lon : ℚ) (res : PredictResult)
    (latArr lonArr : List ℚ)
    (hla : dsLookup ds "lat" = some (VarData.one latArr))
    (hlo : dsLookup ds "lon" = some (VarData.one lonArr))
    (hok : predict_core ds lat lon = .ok res) :
    (argminAbs latArr lat = some res.i ∧ argminAbs lonArr lon = some res.j) ∧
    (res.i < latArr.length ∧
     (∀ k, k < latArr.length →
        |latArr.getD res.i 0 - lat| ≤ |latArr.getD k 0 - lat|) ∧
     (∀ k, k < res.i → |latArr.getD res.i 0 - lat| < |latArr.getD k 0 - lat|)) ∧
    (res.j < lonArr.length ∧
     (∀ k, k < lonArr.length →
        |lonArr.getD res.j 0 - lon| ≤ |lonArr.getD k 0 - lon|) ∧
     (∀ k, k < res.j → |lonArr.getD res.j 0 - lon| < |lonArr.getD k 0 - lon|)) ∧
    (res.nearest_lat = latArr.getD res.i 0 ∧
     res.nearest_lon = lonArr.getD res.j 0) ∧
    (argminAbs [0, 10, 20] 12 = some 1 ∧ argminAbs [0, 10] 1 = some 0) := by
  obtain ⟨hv, h, la, lo, row, hpl, hi, hj, hrow, hcell, _, _, hnla, hnlo, _⟩ :=
    predict_core_ok_inv ds lat lon res hok
  obtain ⟨_, hla2, hlo2⟩ := predict_lookups_inv ds h la lo hpl
  have hEqA := hla.symm.trans hla2
  injection hEqA with hEqA1
  injection hEqA1 with hEqA2
  subst hEqA2
  have hEqB := hlo.symm.trans hlo2
  injection hEqB with hEqB1
  injection hEqB1 with hEqB2
  subst hEqB2
  obtain ⟨hi1, hi2, hi3⟩ := argminAbs_spec latArr lat res.i hi
  obtain ⟨hj1, hj2, hj3⟩ := argminAbs_spec lonArr lon res.j hj
  refine ⟨⟨hi, hj⟩, ⟨hi1, hi2, hi3⟩, ⟨hj1, hj2, hj3⟩, ⟨hnla, hnlo⟩, ?_, ?_⟩
  · norm_num [argminAbs, argminAux]
  · norm_num [argminAbs, argminAux]

/-- Witness for C3 at the spec's concrete example: a 3×2 grid with axes
`lat = [0,10,20]`, `lon = [0,10]`, queried at `(12, 1)`. -/
theorem predict_nearest_spec_witness :
    (dsLookup (Dataset.mk [("lat", [0, 10, 20]), ("lon", [0, 10])]
        [("H_index", VarData.two [[some 1, some 2], [some 3, some 4], [some 5, some 6]])]
        []) "lat" = some (VarData.one [0, 10, 20]) ∧
     dsLookup (Dataset.mk [("lat", [0, 10, 20]), ("lon", [0, 10])]
        [("H_index", VarData.two [[some 1, some 2], [some 3, some 4], [some 5, some 6]])]
        []) "lon" = some (VarData.one [0, 10]) ∧
     predict_core (Dataset.mk [("lat", [0, 10, 20]), ("lon", [0, 10])]
        [("H_index", VarData.two [[some 1, some 2], [some 3, some 4], [some 5, some 6]])]
        []) 12 1 =
       .ok { lat := 12, lon := 1, H_index := some 3,
             nearest_lat := List.getD [0, 10, 20] 1 0,
             nearest_lon := List.getD [0, 10] 0 0,
             i := 1, j := 0, interp := interpretation (some 3) }) ∧
    (argminAbs [0, 10, 20] 12 = some 1 ∧ argminAbs [0, 10] 1 = some 0) := by
  have hok : predict_core (Dataset.mk [("lat", [0, 10, 20]), ("lon", [0, 10])]
      [("H_index", VarData.two [[some 1, some 2], [some 3, some 4], [some 5, some 6]])]
      []) 12 1 =
      .ok { lat := 12, lon := 1, H_index := some 3,
            nearest_lat := List.getD [0, 10, 20] 1 0,
            nearest_lon := List.getD [0, 10] 0 0,
            i := 1, j := 0, interp := interpretation (some 3) } :=
    predict_core_ok_shape _ 12 1
      [[some 1, some 2], [some 3, some 4], [some 5, some 6]]
      [0, 10, 20] [0, 10] 1 0 [some 3, some 4] (some 3)
      (by decide) (by decide) (by decide) (by decide)
      (by norm_num [argminAbs, argminAux])
      (by norm_num [argminAbs, argminAux])
      (by decide) (by decide)
  exact ⟨⟨by decide, by decide, hok⟩,
    (predict_nearest_spec _ 12 1 _ [0, 10, 20] [0, 10]
      (by decide) (by decide) hok).2.2.2.2⟩

/-! ## Claim C4 — null substitution and classification bands -/

/-- C4.  The value read at the resolved cell is reported verbatim as the
(possibly null) `H_index` — a non-finite cell becomes `null` rather than a
failure — and the classification label is a pure function of that value
with bands: "High potential" iff value > 0.7, "Moderate potential" iff
0.4 < value ≤ 0.7, "Low potential" iff value ≤ 0.4 or null; in particular
0.71 is high, 0.41 moderate, and exactly 0.4 or null low. -/
theorem predict_value_classification :
    (∀ val : Option ℚ,
      (interpretation val = "High potential" ↔
        ∃ v, val = some v ∧ 7/10 < v) ∧
      (interpretation val = "Moderate potential" ↔
        ∃ v, val = some v ∧ 2/5 < v ∧ v ≤ 7/10) ∧
      (interpretation val = "Low potential" ↔
        val = none ∨ ∃ v, val = some v ∧ v ≤ 2/5)) ∧
    (∀ (ds : Dataset) (lat lon : ℚ) (res : PredictResult)
        (h : List (List Val)) (latArr lonArr : List ℚ),
      predict_lookups ds = some (h, latArr, lonArr) →
      predict_core ds lat lon = .ok res →
      (h[res.i]?.bind fun r => r[res.j]?) = some res.H_index ∧
      res.interp = interpretation res.H_index) ∧
    (∀ (ds : Dataset) (lat lon : ℚ) (h : List (List Val))
        (latArr lonArr : List ℚ) (i j : Nat) (row : List Val),
      validate_coordinates lat lon ds = .ok () →
      predict_lookups ds = some (h, latArr, lonArr) →
      argminAbs latArr lat = some i → argminAbs lonArr lon = some j →
      h[i]? = some row → row[j]? = some none →
      ∃ res, predict_core ds lat lon = .ok res ∧
        res.H_index = none ∧ res.interp = "Low potential") ∧
    (interpretation (some (71/100)) = "High potential" ∧
     interpretation (some (2/5)) = "Low potential" ∧
     interpretation (some (41/100)) = "Moderate potential" ∧
     interpretation none = "Low potential") := by
  refine ⟨?_, ?_, ?_, ?_⟩
  · intro val
    cases val with
    | none =>
        refine ⟨iff_of_false (by decide) ?_, iff_of_false (by decide) ?_,
                iff_of_true rfl (Or.inl rfl)⟩
        · rintro ⟨v, hv, _⟩; cases hv
        · rintro ⟨v, hv, _⟩; cases hv
    | some v =>
        have hred : interpretation (some v) =
            (if v ≠ 0 ∧ 7/10 < v then "High potential"
             else if v ≠ 0 ∧ 2/5 < v then "Moderate potential"
             else "Low potential") := rfl
        by_cases h1 : v ≠ 0 ∧ 7/10 < v
        · have hval : interpretation (some v) = "High potential" := by
            rw [hred, if_pos h1]
          refine ⟨iff_of_true hval ⟨v, rfl, h1.2⟩,
                  iff_of_false (by rw [hval]; decide) ?_,
                  iff_of_false (by rw [hval]; decide) ?_⟩
          · rintro ⟨w, hw, _, hw2⟩
            injection hw with hw'
            subst hw'
            exact absurd h1.2 (not_lt_of_le hw2)
          · rintro (hnone | ⟨w, hw, hw2⟩)
            · cases hnone
            · injection hw with hw'
              subst hw'
              have h25 : (2:ℚ)/5 < v := lt_trans (by norm_num) h1.2
              exact absurd h25 (not_lt_of_le hw2)
        · by_cases h2 : v ≠ 0 ∧ 2/5 < v
          · have hval : interpretation (some v) = "Moderate potential" := by
              rw [hred, if_neg h1, if_pos h2]
            have hle : v ≤ 7/10 := by
              by_contra hgt
              push_neg at hgt
              exact h1 ⟨h2.1, hgt⟩
            refine ⟨iff_of_false (by rw [hval]; decide) ?_,
                    iff_of_true hval ⟨v, rfl, h2.2, hle⟩,
                    iff_of_false (by rw [hval]; decide) ?_⟩
            · rintro ⟨w, hw, hw2⟩
              injection hw with hw'
              subst hw'
              exact absurd ⟨h2.1, hw2⟩ h1
            · rintro (hnone | ⟨w, hw, hw2⟩)
              · cases hnone
              · injection hw with hw'
                subst hw'
                exact absurd h2.2 (not_lt_of_le hw2)
          · have hval : interpretation (some v) = "Low potential" := by
              rw [hred, if_neg h1, if_neg h2]
            have hle : v ≤ 2/5 := by
              by_cases hv0 : v = 0
              · rw [hv0]; norm_num
              · by_contra hgt
                push_neg at hgt
                exact h2 ⟨hv0, hgt⟩
            refine ⟨iff_of_false (by rw [hval]; decide) ?_,
                    iff_of_false (by rw [hval]; decide) ?_,
                    iff_of_true hval (Or.inr ⟨v, rfl, hle⟩)⟩
            · rintro ⟨w, hw, hw2⟩
              injection hw with hw'
              subst hw'
              have hne : v ≠ 0 := by
                intro h0
                rw [h0] at hw2
                exact absurd hw2 (by norm_num)
              exact h1 ⟨hne, hw2⟩
            · rintro ⟨w, hw, hw2, _⟩
              injection hw with hw'
              subst hw'
              have hne : v ≠ 0 := by
                intro h0
                rw [h0] at hw2
                exact absurd hw2 (by norm_num)
              exact h2 ⟨hne, hw2⟩
  · intro ds lat lon res h latArr lonArr hpl hok
    obtain ⟨_, h', la', lo', row, hpl', hi, hj, hrow, hcell, _, _, _, _, hint⟩ :=
      predict_core_ok_inv ds lat lon res hok
    have hEq := hpl.symm.trans hpl'
    injection hEq with hEq1
    have hh : h = h' := congrArg Prod.fst hEq1
    have hlaq : latArr = la' := congrArg (fun t => t.2.1) hEq1
    have hloq : lonArr = lo' := congrArg (fun t => t.2.2) hEq1
    subst hh
    subst hlaq
    subst hloq
    constructor
    · rw [hrow]
      show row[res.j]? = some res.H_index
      exact hcell
    · exact hint
  · intro ds lat lon h latArr lonArr i j row hv hpl hi hj hrow hcell
    obtain ⟨hH, hla, hlo⟩ := predict_lookups_inv ds h latArr lonArr hpl
    refine ⟨_, predict_core_ok_shape ds lat lon h latArr lonArr i j row none
      hv hH hla hlo hi hj hrow hcell, rfl, rfl⟩
  · refine ⟨?_, ?_, ?_, ?_⟩
    · norm_num [interpretation]
    · norm_num [interpretation]
    · norm_num [interpretation]
    · rfl

/-- Witness for C4: a 1×1 grid whose only cell is non-finite (NaN); the
query succeeds with a null `H_index` classified "Low potential". -/
theorem predict_value_classification_witness :
    (validate_coordinates 0 0 (Dataset.mk [("lat", [0]), ("lon", [0])]
        [("H_index", VarData.two [[none]])] []) = .ok () ∧
     predict_lookups (Dataset.mk [("lat", [0]), ("lon", [0])]
        [("H_index", VarData.two [[none]])] []) = some ([[none]], [0], [0]) ∧
     argminAbs [0] 0 = some 0 ∧
     [[(none : Val)]][0]? = some [none] ∧
     [(none : Val)][0]? = some none) ∧
    (∃ res, predict_core (Dataset.mk [("lat", [0]), ("lon", [0])]
        [("H_index", VarData.two [[none]])] []) 0 0 = .ok res ∧
      res.H_index = none ∧ res.interp = "Low potential") :=
  ⟨⟨by decide, by decide, by norm_num [argminAbs, argminAux], by decide, by decide⟩,
   predict_value_classification.2.2.1
     (Dataset.mk [("lat", [0]), ("lon", [0])] [("H_index", VarData.two [[none]])] [])
     0 0 [[none]] [0] [0] 0 0 [none]
     (by decide) (by decide)
     (by norm_num [argminAbs, argminAux])
     (by norm_num [argminAbs, argminAux])
     (by decide) (by decide)⟩

/-! ## Claim C10 — `/predict` requires the literal names
`"lat"`, `"lon"`, `"H_index"` -/

/-- C10.  `predict` returns a result only when the grid stores its axes and
data under the literal names `"lat"`, `"lon"`, `"H_index"`; a grid whose
axes exist only as `"latitude"`/`"longitude"` passes coordinate resolution
and bounds validation, but the subsequent literal read of `"lat"` fails and
the query ends in a 500 server error instead of a result. -/
theorem predict_literal_names_spec :
    (∀ (ds : Dataset) (lat lon : ℚ) (res : PredictResult),
      predict_core ds lat lon = .ok res →
      (dsLookup ds "H_index").isSome ∧ (dsLookup ds "lat").isSome ∧
      (dsLookup ds "lon").isSome) ∧
    (∀ (ds : Dataset) (lat lon : ℚ),
      dsLookup ds "lat" = none →
      validate_coordinates lat lon ds = .ok () →
      predict_core ds lat lon = .error (.serverError "Erreur prédiction") ∧
      httpStatus (.serverError "Erreur prédiction") = 500) := by
  constructor
  · intro ds lat lon res hok
    obtain ⟨_, h, la, lo, row, hpl, _⟩ := predict_core_ok_inv ds lat lon res hok
    obtain ⟨hH, hla, hlo⟩ := predict_lookups_inv ds h la lo hpl
    exact ⟨by rw [hH]; rfl, by rw [hla]; rfl, by rw [hlo]; rfl⟩
  · intro ds lat lon hla hv
    have hpl : predict_lookups ds = none := by
      unfold predict_lookups
      cases h1 : dsLookup ds "H_index" with
      | none => rfl
      | some v1 =>
          cases v1 with
          | one _ => rfl
          | two h => rw [hla]
    constructor
    · unfold predict_core
      rw [hv]
      show (match predict_lookups ds with
        | none => Except.error (ApiError.serverError "Erreur prédiction")
        | some (h, latArr, lonArr) =>
          match predict_cell h latArr lonArr lat lon with
          | none => Except.error (ApiError.serverError "Erreur prédiction")
          | some (i, j, val) =>
            Except.ok
              ({ lat := lat, lon := lon, H_index := val,
                 nearest_lat := latArr.getD i 0, nearest_lon := lonArr.getD j 0,
                 i := i, j := j, interp := interpretation val } : PredictResult)) = _
      rw [hpl]
    · rfl

/-- Witness for C10: a grid with axes named only `"latitude"`/`"longitude"`
(and `"H_index"` present): validation passes, the query still 500s. -/
theorem predict_literal_names_spec_witness :
    (dsLookup (Dataset.mk [("latitude", [0]), ("longitude", [0])]
        [("H_index", VarData.two [[some 1]])] []) "lat" = none ∧
     validate_coordinates 0 0 (Dataset.mk [("latitude", [0]), ("longitude", [0])]
        [("H_index", VarData.two [[some 1]])] []) = .ok ()) ∧
    (predict_core (Dataset.mk [("latitude", [0]), ("longitude", [0])]
        [("H_index", VarData.two [[some 1]])] []) 0 0 =
      .error (.serverError "Erreur prédiction") ∧
     httpStatus (.serverError "Erreur prédiction") = 500) :=
  ⟨⟨by decide, by decide⟩,
   predict_literal_names_spec.2
     (Dataset.mk [("latitude", [0]), ("longitude", [0])]
       [("H_index", VarData.two [[some 1]])] [])
     0 0 (by decide) (by decide)⟩

/-! ## Claim C9 — extractor parameter validation -/

/-- C9.  `get_habitat_geojson` rejects invalid parameters before doing any
work — the outcome does not depend on the dataset load at all: any
`threshold` outside `[0, 1]` fails with the 400 threshold `RangeError`, and
(with a valid threshold) any `max_features` outside `[1, 50000]` fails with
the 400 `max_features` `RangeError`. -/
theorem habitat_param_validation (loadRes : Except ApiError Dataset)
    (threshold : ℚ) (max_features : Int) :
    (¬ (0 ≤ threshold ∧ threshold ≤ 1) →
      get_habitat_geojson loadRes threshold max_features =
        .error (.paramError "Threshold doit être entre 0.0 et 1.0") ∧
      httpStatus (.paramError "Threshold doit être entre 0.0 et 1.0") = 400) ∧
    ((0 ≤ threshold ∧ threshold ≤ 1) →
      (max_features < 1 ∨ 50000 < max_features) →
      get_habitat_geojson loadRes threshold max_features =
        .error (.paramError "max_features doit être entre 1 et 50000") ∧
      httpStatus (.paramError "max_features doit être entre 1 et 50000") = 400) := by
  constructor
  · intro hbad
    refine ⟨?_, rfl⟩
    unfold get_habitat_geojson
    rw [if_pos hbad]
  · intro hgood hbad
    refine ⟨?_, rfl⟩
    unfold get_habitat_geojson
    rw [if_neg (not_not_intro hgood), if_pos hbad]

/-- Witness for C9: `threshold = 1.5` and `max_features = 0` are rejected
even when the dataset load failed (no work is done). -/
theorem habitat_param_validation_witness :
    (¬ (0 ≤ (3/2 : ℚ) ∧ (3/2 : ℚ) ≤ 1) ∧
     get_habitat_geojson (.error (.notFound "absent")) (3/2) 7 =
       .error (.paramError "Threshold doit être entre 0.0 et 1.0")) ∧
    ((0 ≤ (1/2 : ℚ) ∧ (1/2 : ℚ) ≤ 1) ∧ ((0 : Int) < 1 ∨ 50000 < (0 : Int)) ∧
     get_habitat_geojson (.error (.notFound "absent")) (1/2) 0 =
       .error (.paramError "max_features doit être entre 1 et 50000")) :=
  ⟨⟨by norm_num,
    ((habitat_param_validation (.error (.notFound "absent")) (3/2) 7).1
      (by norm_num)).1⟩,
   ⟨by norm_num, Or.inl (by decide),
    ((habitat_param_validation (.error (.notFound "absent")) (1/2) 0).2
      (by norm_num) (Or.inl (by decide))).1⟩⟩

/-! ## Claim C6 — dataset cache memoization -/

theorem load_netcdf_cached (env : Env) (cache : Cache) (name : String)
    (ds : Dataset) (hc : cache.lookup name = some ds) :
    load_netcdf env cache name true = (.ok ds, cache, 0) := by
  unfold load_netcdf
  show (match cache.lookup name with
    | some ds => ((.ok ds : Except ApiError Dataset), cache, 0)
    | none => load_fresh env cache name true) = _
  rw [hc]

theorem load_netcdf_uncached (env : Env) (cache : Cache) (name : String)
    (hc : cache.lookup name = none) :
    load_netcdf env cache name true = load_fresh env cache name true := by
  unfold load_netcdf
  show (match cache.lookup name with
    | some ds => ((.ok ds : Except ApiError Dataset), cache, 0)
    | none => load_fresh env cache name true) = _
  rw [hc]

/-- C6.  The dataset cache memoizes: after a successful
`load_netcdf(name, use_cache=True)` the dataset is stored under `name`,
and every subsequent cached call returns that same instance with zero
storage reads (at-most-one-load-per-name); a failed call — any error, with
or without caching — leaves the cache exactly as it was (no partial or
corrupt entry). -/
theorem load_netcdf_cache_spec (env : Env) (cache : Cache) (name : String) :
    (∀ ds cache2 k, load_netcdf env cache name true = (.ok ds, cache2, k) →
      cache2.lookup name = some ds ∧
      load_netcdf env cache2 name true = (.ok ds, cache2, 0)) ∧
    (∀ (u : Bool) e cache2 k,
      load_netcdf env cache name u = (.error e, cache2, k) → cache2 = cache) := by
  constructor
  · intro ds cache2 k heq
    cases hc : cache.lookup name with
    | some ds0 =>
        have h2 := (load_netcdf_cached env cache name ds0 hc).symm.trans heq
        injection h2 with hA hBC
        injection hBC with hB hC
        injection hA with hA'
        constructor
        · rw [← hB, ← hA']
          exact hc
        · rw [← hB, ← hA']
          exact load_netcdf_cached env cache name ds0 hc
    | none =>
        rw [load_netcdf_uncached env cache name hc] at heq
        unfold load_fresh at heq
        cases hm : env.metadata.lookup name with
        | none =>
            rw [hm] at heq
            exact absurd heq (by simp)
        | some filename =>
            rw [hm] at heq
            have heq2 : (match env.storage filename with
              | none =>
                ((.error (.serverError ("Erreur chargement " ++ filename)) :
                  Except ApiError Dataset), cache, 1)
              | some ds =>
                (.ok ds, if true then (name, ds) :: cache else cache, 1)) =
                (.ok ds, cache2, k) := heq
            cases hs : env.storage filename with
            | none =>
                rw [hs] at heq2
                exact absurd heq2 (by simp)
            | some ds0 =>
                rw [hs] at heq2
                have heq3 : ((.ok ds0 : Except ApiError Dataset),
                    (name, ds0) :: cache, 1) = (.ok ds, cache2, k) := heq2
                injection heq3 with hA hBC
                injection hBC with hB hC
                injection hA with hA'
                have hlk : cache2.lookup name = some ds := by
                  rw [← hB, ← hA']
                  simp [List.lookup]
                exact ⟨hlk, load_netcdf_cached env cache2 name ds hlk⟩
  · intro u e cache2 k heq
    cases u with
    | true =>
        cases hc : cache.lookup name with
        | some ds0 =>
            have h2 := (load_netcdf_cached env cache name ds0 hc).symm.trans heq
            exact absurd h2 (by simp)
        | none =>
            rw [load_netcdf_uncached env cache name hc] at heq
            unfold load_fresh at heq
            cases hm : env.metadata.lookup name with
            | none =>
                rw [hm] at heq
                have heq2 : ((.error (.notFound
                    ("Couche '" ++ name ++ "' introuvable dans metadata.json")) :
                    Except ApiError Dataset), cache, 0) = (.error e, cache2, k) := heq
                injection heq2 with hA hBC
                injection hBC with hB hC
                exact hB.symm
            | some filename =>
                rw [hm] at heq
                have heq2 : (match env.storage filename with
                  | none =>
                    ((.error (.serverError ("Erreur chargement " ++ filename)) :
                      Except ApiError Dataset), cache, 1)
                  | some ds =>
                    (.ok ds, if true then (name, ds) :: cache else cache, 1)) =
                    (.error e, cache2, k) := heq
                cases hs : env.storage filename with
                | none =>
                    rw [hs] at heq2
                    injection heq2 with hA hBC
                    injection hBC with hB hC
                    exact hB.symm
                | some ds0 =>
                    rw [hs] at heq2
                    exact absurd heq2 (by simp)
    | false =>
        have heqf : load_fresh env cache name false = (.error e, cache2, k) := heq
        unfold load_fresh at heqf
        cases hm : env.metadata.lookup name with
        | none =>
            rw [hm] at heqf
            injection heqf with hA hBC
            injection hBC with hB hC
            exact hB.symm
        | some filename =>
            rw [hm] at heqf
            have heq2 : (match env.storage filename with
              | none =>
                ((.error (.serverError ("Erreur chargement " ++ filename)) :
                  Except ApiError Dataset), cache, 1)
              | some ds =>
                (.ok ds, if false then (name, ds) :: cache else cache, 1)) =
                (.error e, cache2, k) := heqf
            cases hs : env.storage filename with
            | none =>
                rw [hs] at heq2
                injection heq2 with hA hBC
                injection hBC with hB hC
                exact hB.symm
            | some ds0 =>
                rw [hs] at heq2
                exact absurd heq2 (by simp)

/-- Witness for C6: a one-layer environment; the first call loads from
storage (one read) and fills the cache, the second returns the cached
instance with zero reads; an unknown layer fails leaving the cache empty. -/
theorem load_netcdf_cache_spec_witness :
    (load_netcdf
        ⟨[("X", "x.nc")],
         fun f => if f = "x.nc" then some (Dataset.mk [("lat", [0])] [] []) else none⟩
        [] "X" true =
      (.ok (Dataset.mk [("lat", [0])] [] []),
       [("X", Dataset.mk [("lat", [0])] [] [])], 1)) ∧
    ([("X", Dataset.mk [("lat", [0])] [] [])].lookup "X" =
      some (Dataset.mk [("lat", [0])] [] []) ∧
     load_netcdf
        ⟨[("X", "x.nc")],
         fun f => if f = "x.nc" then some (Dataset.mk [("lat", [0])] [] []) else none⟩
        [("X", Dataset.mk [("lat", [0])] [] [])] "X" true =
      (.ok (Dataset.mk [("lat", [0])] [] []),
       [("X", Dataset.mk [("lat", [0])] [] [])], 0)) ∧
    (load_netcdf
        ⟨[("X", "x.nc")],
         fun f => if f = "x.nc" then some (Dataset.mk [("lat", [0])] [] []) else none⟩
        [] "Y" true =
      (.error (.notFound "Couche 'Y' introuvable dans metadata.json"), [], 0) ∧
     ([] : Cache) = []) :=
  ⟨by rfl,
   (load_netcdf_cache_spec
      ⟨[("X", "x.nc")],
       fun f => if f = "x.nc" then some (Dataset.mk [("lat", [0])] [] []) else none⟩
      [] "X").1 (Dataset.mk [("lat", [0])] [] [])
      [("X", Dataset.mk [("lat", [0])] [] [])] 1 (by rfl),
   ⟨by rfl,
    (load_netcdf_cache_spec
       ⟨[("X", "x.nc")],
        fun f => if f = "x.nc" then some (Dataset.mk [("lat", [0])] [] []) else none⟩
       [] "Y").2 true
      (.notFound "Couche 'Y' introuvable dans metadata.json") [] 0 (by rfl)⟩⟩

/-! ## Claim C5 — threshold extractor -/

/-- Row-major (C-order) strict ordering on cell indices. -/
def rowMajorLt (a b : Nat × Nat) : Prop :=
  a.1 < b.1 ∨ (a.1 = b.1 ∧ a.2 < b.2)

theorem enum_pairwise_fst (l : List α) :
    List.Pairwise (fun p q : Nat × α => p.1 < q.1) l.enum := by
  rw [List.pairwise_iff_getElem]
  intro i j hi hj hij
  rw [List.getElem_enum, List.getElem_enum]
  exact hij

/-- The inner scan function of `qualifyingCells` at row `i`. -/
def qualInner (thr : ℚ) (i : Nat) (q : Nat × Val) : Option (Nat × Nat) :=
  match q.2 with
  | some v => if thr < v then some (i, q.1) else none
  | none => none

theorem qualInner_eq_some (thr : ℚ) (i : Nat) (q : Nat × Val) (c : Nat × Nat)
    (h : qualInner thr i q = some c) :
    c = (i, q.1) ∧ ∃ v, q.2 = some v ∧ thr < v := by
  unfold qualInner at h
  cases hq : q.2 with
  | none => rw [hq] at h; cases h
  | some v =>
      rw [hq] at h
      have h2 : (if thr < v then some (i, q.1) else none) = some c := h
      by_cases ht : thr < v
      · rw [if_pos ht] at h2
        injection h2 with h2'
        exact ⟨h2'.symm, v, rfl, ht⟩
      · rw [if_neg ht] at h2
        cases h2

theorem qualifyingCells_eq (h : List (List Val)) (thr : ℚ) :
    qualifyingCells h thr =
      (h.enum.map (fun p => p.2.enum.filterMap (qualInner thr p.1))).flatten := rfl

/-- Membership in `np.where(h > thr)`: exactly the in-range cells holding a
finite value strictly above the threshold. -/
theorem qualifyingCells_mem (h : List (List Val)) (thr : ℚ) (i j : Nat) :
    (i, j) ∈ qualifyingCells h thr ↔
      ∃ row, h[i]? = some row ∧ ∃ v, row[j]? = some (some v) ∧ thr < v := by
  rw [qualifyingCells_eq, List.mem_flatten]
  constructor
  · rintro ⟨l, hl, hmem⟩
    rcases List.mem_map.mp hl with ⟨⟨i', row⟩, henum, rfl⟩
    rcases List.mem_filterMap.mp hmem with ⟨⟨j', c⟩, hjc, hfc⟩
    obtain ⟨hij, v, hv, ht⟩ := qualInner_eq_some thr i' ⟨j', c⟩ (i, j) hfc
    injection hij with hi' hj'
    subst hi'
    subst hj'
    refine ⟨row, List.mk_mem_enum_iff_getElem?.mp henum, v, ?_, ht⟩
    have h2 : row[j]? = some c := List.mk_mem_enum_iff_getElem?.mp hjc
    rw [h2]
    exact congrArg some hv
  · rintro ⟨row, hrow, v, hv, ht⟩
    refine ⟨row.enum.filterMap (qualInner thr i),
      List.mem_map.mpr ⟨(i, row), List.mk_mem_enum_iff_getElem?.mpr hrow, rfl⟩, ?_⟩
    refine List.mem_filterMap.mpr ⟨(j, some v),
      List.mk_mem_enum_iff_getElem?.mpr hv, ?_⟩
    unfold qualInner
    simp only
    rw [if_pos ht]

/-- Ordering: `np.where` enumerates qualifying cells in strictly increasing row-major
order. -/
theorem qualifyingCells_sorted (h : List (List Val)) (thr : ℚ) :
    List.Pairwise rowMajorLt (qualifyingCells h thr) := by
  rw [qualifyingCells_eq, List.pairwise_flatten]
  constructor
  · intro l hl
    rcases List.mem_map.mp hl with ⟨⟨i, row⟩, _, rfl⟩
    rw [List.pairwise_filterMap]
    refine (enum_pairwise_fst row).imp ?_
    intro q q' hlt b hb b' hb'
    obtain ⟨rfl, -⟩ := qualInner_eq_some thr i q b hb
    obtain ⟨rfl, -⟩ := qualInner_eq_some thr i q' b' hb'
    exact Or.inr ⟨rfl, hlt⟩
  · rw [List.pairwise_map]
    refine (enum_pairwise_fst h).imp ?_
    intro p p' hlt x hx y hy
    rcases List.mem_filterMap.mp hx with ⟨q, _, hq⟩
    rcases List.mem_filterMap.mp hy with ⟨q', _, hq'⟩
    obtain ⟨rfl, -⟩ := qualInner_eq_some thr p.1 q x hq
    obtain ⟨rfl, -⟩ := qualInner_eq_some thr p'.1 q' y hq'
    exact Or.inl hlt

theorem getElem?_some_lt_length (l : List α) (n : Nat) (a : α)
    (h : l[n]? = some a) : n < l.length := by
  by_contra hge
  push_neg at hge
  rw [List.getElem?_eq_none hge] at h
  cases h

/-- Every qualifying cell of an aligned grid yields a feature. -/
theorem cellFeature_isSome (latArr lonArr : List ℚ) (h : List (List Val))
    (thr : ℚ) (hrows : h.length ≤ latArr.length)
    (hcols : ∀ row ∈ h, row.length ≤ lonArr.length)
    (c : Nat × Nat) (hc : c ∈ qualifyingCells h thr) :
    (cellFeature latArr lonArr h c).isSome := by
  obtain ⟨i, j⟩ := c
  rcases (qualifyingCells_mem h thr i j).mp hc with ⟨row, hrow, v, hv, ht⟩
  have hi : i < h.length := getElem?_some_lt_length h i row hrow
  have hj : j < row.length := getElem?_some_lt_length row j (some v) hv
  have hilat : i < latArr.length := lt_of_lt_of_le hi hrows
  have hjlon : j < lonArr.length :=
    lt_of_lt_of_le hj (hcols row (List.getElem?_mem hrow))
  unfold cellFeature
  rw [List.getElem?_eq_getElem hilat, List.getElem?_eq_getElem hjlon, hrow]
  show (match row[j]? with
    | some (some v) =>
      some ({ H_index := v, latitude := latArr[i], longitude := lonArr[j],
              habitat_potential := if 4/5 < v then "high" else "medium",
              confidence := min (v * 100) 100,
              polygon := [(lonArr[j] - 1/8, latArr[i] - 1/8),
                          (lonArr[j] + 1/8, latArr[i] - 1/8),
                          (lonArr[j] + 1/8, latArr[i] + 1/8),
                          (lonArr[j] - 1/8, latArr[i] + 1/8),
                          (lonArr[j] - 1/8, latArr[i] - 1/8)] } : Feature)
    | _ => none).isSome
  rw [hv]
  rfl

/-- Lifting `mapM` over `Option`: it succeeds pointwise when every element maps to
`some`, and the result is the pointwise image. -/
theorem mapM_option_spec (f : α → Option β) :
    ∀ l : List α, (∀ a ∈ l, (f a).isSome) →
      ∃ bs, l.mapM f = some bs ∧ bs.length = l.length ∧
        ∀ k : Nat, bs[k]? = l[k]?.bind f := by
  intro l
  induction l with
  | nil =>
      intro _
      exact ⟨[], rfl, rfl, by intro k; simp⟩
  | cons a l ih =>
      intro hall
      obtain ⟨b, hb⟩ := Option.isSome_iff_exists.mp (hall a (List.mem_cons_self a l))
      obtain ⟨bs, hbs, hlen, hget⟩ := ih (fun x hx => hall x (List.mem_cons_of_mem a hx))
      refine ⟨b :: bs, ?_, by simp [hlen], ?_⟩
      · rw [List.mapM_cons, hb, hbs]
        rfl
      · intro k
        cases k with
        | zero => simp [hb]
        | succ k => simpa using hget k

/-- C5.  With valid parameters and an aligned grid, `get_habitat_geojson`
succeeds; the features are exactly the cells strictly above the threshold,
taken in row-major scan order, truncated to `max_features` (later cells are
silently dropped), while the metadata reports both the returned count
(`total_zones`) and the total number of qualifying cells
(`total_available`), which may exceed it. -/
theorem get_habitat_geojson_spec (ds : Dataset) (latArr lonArr : List ℚ)
    (h : List (List Val)) (threshold : ℚ) (max_features : Int)
    (hres : get_lat_lon_arrays ds = .ok (VarData.one latArr, VarData.one lonArr))
    (hH : dsLookup ds "H_index" = some (VarData.two h))
    (hthr : 0 ≤ threshold ∧ threshold ≤ 1)
    (hmf : 1 ≤ max_features ∧ max_features ≤ 50000)
    (hrows : h.length ≤ latArr.length)
    (hcols : ∀ row ∈ h, row.length ≤ lonArr.length) :
    ∃ coll, get_habitat_geojson (.ok ds) threshold max_features = .ok coll ∧
      coll.metadata.total_available = (qualifyingCells h threshold).length ∧
      coll.features.length =
        min (qualifyingCells h threshold).length max_features.toNat ∧
      coll.metadata.total_zones = coll.features.length ∧
      (∀ k : Nat, coll.features[k]? =
        ((qualifyingCells h threshold).take
            (min (qualifyingCells h threshold).length max_features.toNat))[k]?.bind
          (cellFeature latArr lonArr h)) ∧
      (∀ i j, ((i, j) ∈ qualifyingCells h threshold ↔
        ∃ row, h[i]? = some row ∧ ∃ v, row[j]? = some (some v) ∧ threshold < v)) ∧
      List.Pairwise rowMajorLt (qualifyingCells h threshold) := by
  have hall : ∀ c ∈ (qualifyingCells h threshold).take
      (min (qualifyingCells h threshold).length max_features.toNat),
      (cellFeature latArr lonArr h c).isSome := by
    intro c hcmem
    exact cellFeature_isSome latArr lonArr h threshold hrows hcols c
      (List.mem_of_mem_take hcmem)
  obtain ⟨features, hfeat, hflen, hfget⟩ :=
    mapM_option_spec (cellFeature latArr lonArr h) _ hall
  have hgoal : get_habitat_geojson (.ok ds) threshold max_features =
      .ok { features := features,
            metadata := { total_zones := features.length,
                          total_available := (qualifyingCells h threshold).length,
                          threshold := threshold,
                          max_features := max_features } } := by
    unfold get_habitat_geojson
    rw [if_neg (not_not_intro hthr), if_neg (by omega)]
    show (match get_lat_lon_arrays ds with
      | .error e => Except.error (ApiError.coordError e)
      | .ok (VarData.one latArr, VarData.one lonArr) =>
        match dsLookup ds "H_index" with
        | some (VarData.two h) =>
          let idxs := qualifyingCells h threshold
          let total := min idxs.length max_features.toNat
          match (idxs.take total).mapM (cellFeature latArr lonArr h) with
          | some features =>
            Except.ok
              ({ features := features,
                 metadata := { total_zones := features.length,
                               total_available := idxs.length,
                               threshold := threshold,
                               max_features := max_features } } : FeatureCollection)
          | none => Except.error (ApiError.serverError "Erreur génération GeoJSON")
        | _ => Except.error (ApiError.serverError "Erreur génération GeoJSON")
      | .ok _ => Except.error (ApiError.serverError "Erreur génération GeoJSON")) = _
    rw [hres]
    show (match dsLookup ds "H_index" with
      | some (VarData.two h) =>
        let idxs := qualifyingCells h threshold
        let total := min idxs.length max_features.toNat
        match (idxs.take total).mapM (cellFeature latArr lonArr h) with
        | some features =>
          Except.ok
            ({ features := features,
               metadata := { total_zones := features.length,
                             total_available := idxs.length,
                             threshold := threshold,
                             max_features := max_features } } : FeatureCollection)
        | none => Except.error (ApiError.serverError "Erreur génération GeoJSON")
      | _ => Except.error (ApiError.serverError "Erreur génération GeoJSON")) = _
    rw [hH]
    show (match (List.take
        (min (qualifyingCells h threshold).length max_features.toNat)
        (qualifyingCells h threshold)).mapM (cellFeature latArr lonArr h) with
      | some features =>
        Except.ok
          ({ features := features,
             metadata := { total_zones := features.length,
                           total_available := (qualifyingCells h threshold).length,
                           threshold := threshold,
                           max_features := max_features } } : FeatureCollection)
      | none => Except.error (ApiError.serverError "Erreur génération GeoJSON")) = _
    rw [hfeat]
  refine ⟨_, hgoal, rfl, ?_, rfl, ?_, ?_, ?_⟩
  · rw [hflen, List.length_take]
    omega
  · intro k
    exact hfget k
  · intro i j
    exact qualifyingCells_mem h threshold i j
  · exact qualifyingCells_sorted h threshold

/-- Witness for C5: a 3×2 grid whose six cells all hold 1; with
`threshold = 0.1` and `max_features = 4`, four features are returned while
six qualify. -/
theorem get_habitat_geojson_spec_witness :
    (get_lat_lon_arrays (Dataset.mk [("lat", [0, 1, 2]), ("lon", [0, 1])]
        [("H_index", VarData.two
          [[some 1, some 1], [some 1, some 1], [some 1, some 1]])] []) =
      .ok (VarData.one [0, 1, 2], VarData.one [0, 1]) ∧
     (0 ≤ (1/10 : ℚ) ∧ (1/10 : ℚ) ≤ 1) ∧
     (1 ≤ (4 : Int) ∧ (4 : Int) ≤ 50000)) ∧
    (∃ coll, get_habitat_geojson
        (.ok (Dataset.mk [("lat", [0, 1, 2]), ("lon", [0, 1])]
          [("H_index", VarData.two
            [[some 1, some 1], [some 1, some 1], [some 1, some 1]])] []))
        (1/10) 4 = .ok coll ∧
      coll.metadata.total_available =
        (qualifyingCells
          [[some 1, some 1], [some 1, some 1], [some 1, some 1]] (1/10)).length ∧
      coll.features.length =
        min (qualifyingCells
          [[some 1, some 1], [some 1, some 1], [some 1, some 1]] (1/10)).length
          (4 : Int).toNat ∧
      coll.metadata.total_zones = coll.features.length ∧
      (∀ k : Nat, coll.features[k]? =
        ((qualifyingCells
            [[some 1, some 1], [some 1, some 1], [some 1, some 1]] (1/10)).take
          (min (qualifyingCells
            [[some 1, some 1], [some 1, some 1], [some 1, some 1]] (1/10)).length
            (4 : Int).toNat))[k]?.bind
          (cellFeature [0, 1, 2] [0, 1]
            [[some 1, some 1], [some 1, some 1], [some 1, some 1]])) ∧
      (∀ i j, ((i, j) ∈ qualifyingCells
          [[some 1, some 1], [some 1, some 1], [some 1, some 1]] (1/10) ↔
        ∃ row, [[some (1:ℚ), some 1], [some 1, some 1],
                [some 1, some 1]][i]? = some row ∧
          ∃ v, row[j]? = some (some v) ∧ (1/10 : ℚ) < v)) ∧
      List.Pairwise rowMajorLt (qualifyingCells
        [[some 1, some 1], [some 1, some 1], [some 1, some 1]] (1/10))) :=
  ⟨⟨by rfl, by norm_num, by decide⟩,
   get_habitat_geojson_spec
     (Dataset.mk [("lat", [0, 1, 2]), ("lon", [0, 1])]
       [("H_index", VarData.two
         [[some 1, some 1], [some 1, some 1], [some 1, some 1]])] [])
     [0, 1, 2] [0, 1]
     [[some 1, some 1], [some 1, some 1], [some 1, some 1]]
     (1/10) 4 (by rfl) (by decide) (by norm_num) (by decide)
     (by decide) (by decide)⟩

end MaziShark
